import Mathlib

/-
Verification of the Semantic Scholar MCP server (semantic-scholar-plugin.py).

The program is a thin request/response adapter: it assembles query parameters,
issues HTTP GETs through httpx, and renders the JSON responses to markdown.
We shallowly embed it over a JSON value model.  Python dictionaries become
association lists, Python dynamic-type errors (AttributeError, TypeError, ...)
become an `Except PyErr` monad, the remote API becomes an explicit outcome
oracle passed in as a function argument, and `json.loads` (a stdlib function
external to the repository) becomes an oracle parameter `String → Except Unit
JValue` whose result space matches the stdlib's (a parse error or a value).
-/

set_option autoImplicit false

namespace SemanticScholar

/-- A JSON value as produced by parsing a response body.  Numbers are modelled
as integers, which covers every numeric field this program touches (years,
citation counts, identifiers). -/
inductive JValue where
  | null
  | bool (b : Bool)
  | num (n : Int)
  | str (s : String)
  | arr (elems : List JValue)
  | obj (fields : List (String × JValue))
deriving Repr

/-- The Python exceptions this program can raise or catch outside of the
httpx transport errors. -/
inductive PyErr where
  | attributeError (msg : String)
  | typeError (msg : String)
  | keyError (msg : String)
  | valueError (msg : String)
deriving Repr, DecidableEq

/-- The message text of an exception, as `str(e)` would produce it. -/
def PyErr.msg : PyErr → String
  | .attributeError m => m
  | .typeError m => m
  | .keyError m => m
  | .valueError m => m

/-- Python's name for the runtime type of a value (used in error messages). -/
def JValue.typeName : JValue → String
  | .null => "NoneType"
  | .bool _ => "bool"
  | .num _ => "int"
  | .str _ => "str"
  | .arr _ => "list"
  | .obj _ => "dict"

/-- Python truthiness of a value (`if value:`). -/
def JValue.truthy : JValue → Bool
  | .null => false
  | .bool b => b
  | .num n => n != 0
  | .str s => !s.isEmpty
  | .arr xs => !xs.isEmpty
  | .obj fs => !fs.isEmpty

/-- Whether the value is a JSON object (a Python dict). -/
def JValue.isObj : JValue → Bool
  | .obj _ => true
  | _ => false

/-- Raw association lookup inside an object; `none` on non-objects. -/
def JValue.look (v : JValue) (k : String) : Option JValue :=
  match v with
  | .obj fs => fs.lookup k
  | _ => none

/-- Python `value.get(key, default)`: defined on dicts, raises
`AttributeError` on any other receiver. -/
def JValue.getD (v : JValue) (k : String) (d : JValue) : Except PyErr JValue :=
  match v with
  | .obj fs => .ok ((fs.lookup k).getD d)
  | other => .error (.attributeError
      ("\x27" ++ other.typeName ++ "\x27 object has no attribute \x27get\x27"))

/-- Python `value[key]` on a dict: `KeyError` when absent, `TypeError` when the
receiver is not subscriptable by a string. -/
def JValue.getItem (v : JValue) (k : String) : Except PyErr JValue :=
  match v with
  | .obj fs =>
    match fs.lookup k with
    | some x => .ok x
    | none => .error (.keyError k)
  | other => .error (.typeError
      ("\x27" ++ other.typeName ++ "\x27 object is not subscriptable"))

/-- Python dict assignment `d[k] = v` on an association list: updates the
binding in place when the key exists, appends otherwise (insertion order is
preserved, as for Python dicts). -/
def setKey : List (String × JValue) → String → JValue → List (String × JValue)
  | [], k, v => [(k, v)]
  | (k0, v0) :: fs, k, v =>
    if k0 == k then (k0, v) :: fs else (k0, v0) :: setKey fs k v

/-- Dict assignment on a `JValue` known to be an object (the embedding only
applies it on values that already passed a dict operation). -/
def JValue.setKey (v : JValue) (k : String) (x : JValue) : JValue :=
  match v with
  | .obj fs => .obj (SemanticScholar.setKey fs k x)
  | other => other

/-- Python `len(value)`: length of lists, strings and dicts, `TypeError`
otherwise. -/
def pyLen : JValue → Except PyErr Int
  | .arr xs => .ok xs.length
  | .str s => .ok s.length
  | .obj fs => .ok fs.length
  | other => .error (.typeError
      ("object of type \x27" ++ other.typeName ++ "\x27 has no len()"))

/-- Python iteration over a value: list elements, string characters (each a
one-character string), dict keys; `TypeError` otherwise. -/
def pyIter : JValue → Except PyErr (List JValue)
  | .arr xs => .ok xs
  | .str s => .ok (s.toList.map fun c => .str (String.mk [c]))
  | .obj fs => .ok (fs.map fun kv => .str kv.1)
  | other => .error (.typeError
      ("\x27" ++ other.typeName ++ "\x27 object is not iterable"))

/-- Python slicing `value[:n]` for lists and strings. -/
def pySliceTo (v : JValue) (n : Nat) : Except PyErr JValue :=
  match v with
  | .arr xs => .ok (.arr (xs.take n))
  | .str s => .ok (.str (String.mk (s.toList.take n)))
  | other => .error (.typeError
      ("\x27" ++ other.typeName ++ "\x27 object is not subscriptable"))

/-- Python `value + "suffix"`: string concatenation, `TypeError` on any
non-string left operand. -/
def pyAddStr (v : JValue) (suffix : String) : Except PyErr JValue :=
  match v with
  | .str s => .ok (.str (s ++ suffix))
  | other => .error (.typeError
      ("can only concatenate " ++ other.typeName ++ " to str"))

/-- Left-to-right effectful map, mirroring a Python list comprehension: the
first raising element aborts the whole comprehension. -/
def mapE {α β : Type} (f : α → Except PyErr β) : List α → Except PyErr (List β)
  | [] => .ok []
  | a :: as => do
    let b ← f a
    let bs ← mapE f as
    pure (b :: bs)

/-- Effectful map carrying a running index, mirroring `enumerate(xs, start)`. -/
def mapIdxE {α β : Type} (f : Nat → α → Except PyErr β) : Nat → List α → Except PyErr (List β)
  | _, [] => .ok []
  | i, a :: as => do
    let b ← f i a
    let bs ← mapIdxE f (i + 1) as
    pure (b :: bs)

/-- One joined item must already be a string, otherwise `join` raises
`TypeError`. -/
def strItem : JValue → Except PyErr String
  | .str s => .ok s
  | other => .error (.typeError
      ("sequence item: expected str instance, " ++ other.typeName ++ " found"))

/-- Python `sep.join(xs)`: every element must already be a string, otherwise
`TypeError`. -/
def joinStrs (sep : String) (xs : List JValue) : Except PyErr String := do
  let ss ← mapE strItem xs
  pure (String.intercalate sep ss)

mutual

/-- Python `repr(value)` (good enough for the strings this program builds:
it is only reachable when a list or dict is interpolated into an f-string). -/
def pyRepr : JValue → String
  | .null => "None"
  | .bool true => "True"
  | .bool false => "False"
  | .num n => toString n
  | .str s => "\x27" ++ s ++ "\x27"
  | .arr xs => "[" ++ pyReprItems xs ++ "]"
  | .obj fs => "\x7b" ++ pyReprFields fs ++ "\x7d"

/-- Comma-separated reprs of list items. -/
def pyReprItems : List JValue → String
  | [] => ""
  | [x] => pyRepr x
  | x :: y :: xs => pyRepr x ++ ", " ++ pyReprItems (y :: xs)

/-- Comma-separated reprs of dict entries. -/
def pyReprFields : List (String × JValue) → String
  | [] => ""
  | [kv] => "\x27" ++ kv.1 ++ "\x27: " ++ pyRepr kv.2
  | kv :: kw :: fs => "\x27" ++ kv.1 ++ "\x27: " ++ pyRepr kv.2 ++ ", " ++ pyReprFields (kw :: fs)

end

/-- Python `str(value)`, as used by f-string interpolation. -/
def pyStr : JValue → String
  | .null => "None"
  | .bool true => "True"
  | .bool false => "False"
  | .num n => toString n
  | .str s => s
  | .arr xs => pyRepr (.arr xs)
  | .obj fs => pyRepr (.obj fs)

mutual

/-- Python `==` between JSON values.  Numbers and booleans compare across the
two types (True == 1); container equality is structural (dict equality is
modelled order-sensitively, which agrees with Python on every comparison this
program performs: the only `==`/`!=` sites compare scalars). -/
def pyEq : JValue → JValue → Bool
  | .null, .null => true
  | .bool a, .bool b => a == b
  | .bool a, .num b => (if a then (1 : Int) else 0) == b
  | .num a, .bool b => a == (if b then (1 : Int) else 0)
  | .num a, .num b => a == b
  | .str a, .str b => a == b
  | .arr a, .arr b => pyEqList a b
  | .obj a, .obj b => pyEqFields a b
  | _, _ => false

/-- Elementwise Python equality of lists. -/
def pyEqList : List JValue → List JValue → Bool
  | [], [] => true
  | a :: as, b :: bs => pyEq a b && pyEqList as bs
  | _, _ => false

/-- Entrywise Python equality of dict entry lists. -/
def pyEqFields : List (String × JValue) → List (String × JValue) → Bool
  | [], [] => true
  | a :: as, b :: bs => (a.1 == b.1) && pyEq a.2 b.2 && pyEqFields as bs
  | _, _ => false

end

/-- Split a digit string (already reversed) into groups of three, for the
thousands separator. -/
def chunk3 : List Char → List (List Char)
  | [] => []
  | a :: b :: c :: rest =>
    match rest with
    | [] => [[a, b, c]]
    | _ => [a, b, c] :: chunk3 rest
  | rest => [rest]

/-- Thousands-separated rendering of a natural number, as Python's `{:,}`
format specifier produces. -/
def commaGroupNat (n : Nat) : String :=
  String.mk (((chunk3 (toString n).toList.reverse).intersperse [',']).flatten.reverse)

/-- Python comma formatting, `value` under format spec comma: formats ints
(and bools, which are ints in Python)
with a thousands separator; raises `ValueError` on strings and `TypeError` on
the other types, as CPython does. -/
def formatComma : JValue → Except PyErr String
  | .num n => .ok (if n < 0 then "-" ++ commaGroupNat n.natAbs else commaGroupNat n.natAbs)
  | .bool b => .ok (if b then "1" else "0")
  | .str _ => .error (.valueError "Cannot specify \x27,\x27 with \x27s\x27.")
  | other => .error (.typeError
      ("unsupported format string passed to " ++ other.typeName ++ ".__format__"))

/-- Whether the first character list is an initial segment of the second. -/
def charsPrefixOf : List Char → List Char → Bool
  | [], _ => true
  | _ :: _, [] => false
  | a :: as, b :: bs => a == b && charsPrefixOf as bs

/-- Whether the first character list occurs contiguously inside the second. -/
def charsInfixOf (needle : List Char) : List Char → Bool
  | [] => charsPrefixOf needle []
  | b :: bs => charsPrefixOf needle (b :: bs) || charsInfixOf needle bs

/-- Substring containment on strings, Python's `needle in haystack`. -/
def pyInStr (needle haystack : String) : Bool :=
  charsInfixOf needle.toList haystack.toList

/-- Python `needle in value` for a string needle: substring test on strings,
membership on lists, key membership on dicts, `TypeError` on the rest
(in particular on `None`, which is how the BibTeX entry-type classification
can crash). -/
def pyInJ (needle : String) (v : JValue) : Except PyErr Bool :=
  match v with
  | .str s => .ok (pyInStr needle s)
  | .arr xs => .ok (xs.any fun x => pyEq x (.str needle))
  | .obj fs => .ok (fs.any fun kv => kv.1 == needle)
  | other => .error (.typeError
      ("argument of type \x27" ++ other.typeName ++ "\x27 is not iterable"))

/-- Python `s.split()`: split on runs of whitespace, dropping empty pieces. -/
def pySplitWs (s : String) : List String :=
  (s.split Char.isWhitespace).filter fun p => !p.isEmpty

/-- Python truthiness of an `Optional[int]` value (`if year_from:`). -/
def optIntTruthy : Option Int → Bool
  | none => false
  | some n => n != 0

/-- Interpolation of an `Optional[int]` into an f-string. -/
def optIntStr : Option Int → String
  | none => "None"
  | some n => toString n

/-- English month name, for `strftime("%B %d, %Y")`. -/
def monthName : Nat → String
  | 1 => "January"
  | 2 => "February"
  | 3 => "March"
  | 4 => "April"
  | 5 => "May"
  | 6 => "June"
  | 7 => "July"
  | 8 => "August"
  | 9 => "September"
  | 10 => "October"
  | 11 => "November"
  | 12 => "December"
  | _ => ""

/-- Models `datetime.fromisoformat` followed by `strftime("%B %d, %Y")` for
date-only ISO strings (`YYYY-MM-DD`), the format the remote API emits; any
other shape yields `none`, and the caller then prints the raw value, exactly
as the source's bare `except:` fallback does.  (This under-approximates
`fromisoformat` on full timestamps; either way no exception escapes, matching
the source.) -/
def parseIsoDate (s : String) : Option String :=
  match s.splitOn "-" with
  | [y, m, d] =>
    if y.length == 4 && m.length == 2 && d.length == 2
        && y.toList.all Char.isDigit && m.toList.all Char.isDigit
        && d.toList.all Char.isDigit then
      let mv := (m.toNat?).getD 0
      let dv := (d.toNat?).getD 0
      if 1 ≤ mv && mv ≤ 12 && 1 ≤ dv && dv ≤ 31 then
        some (monthName mv ++ " " ++ d ++ ", " ++ y)
      else none
    else none
  | _ => none

mutual

/-- Python `json.dumps` with default separators. -/
def jsonDumps : JValue → String
  | .null => "null"
  | .bool true => "true"
  | .bool false => "false"
  | .num n => toString n
  | .str s => "\"" ++ s ++ "\""
  | .arr xs => "[" ++ jsonDumpsItems xs ++ "]"
  | .obj fs => "\x7b" ++ jsonDumpsFields fs ++ "\x7d"

/-- Comma-separated dumps of list items. -/
def jsonDumpsItems : List JValue → String
  | [] => ""
  | [x] => jsonDumps x
  | x :: y :: xs => jsonDumps x ++ ", " ++ jsonDumpsItems (y :: xs)

/-- Comma-separated dumps of dict entries. -/
def jsonDumpsFields : List (String × JValue) → String
  | [] => ""
  | [kv] => "\"" ++ kv.1 ++ "\": " ++ jsonDumps kv.2
  | kv :: kw :: fs => "\"" ++ kv.1 ++ "\": " ++ jsonDumps kv.2 ++ ", " ++ jsonDumpsFields (kw :: fs)

end

/-! ### Constants (source lines 24-32) -/

/-- The expanded fields list requested from the search endpoint. -/
def FIELDS : String :=
  String.intercalate "," ["title", "year", "authors", "venue", "citationCount",
    "externalIds", "abstract", "url", "journal", "fieldsOfStudy",
    "publicationTypes", "publicationDate", "referenceCount",
    "influentialCitationCount", "isOpenAccess", "s2FieldsOfStudy",
    "publicationVenue", "tldr"]

/-- Paper search endpoint. -/
def BASE_URL : String := "https://api.semanticscholar.org/graph/v1/paper/search"

/-- Author search endpoint. -/
def AUTHOR_URL : String := "https://api.semanticscholar.org/graph/v1/author/search"

/-- Paper details endpoint root. -/
def PAPER_DETAILS_URL : String := "https://api.semanticscholar.org/graph/v1/paper/"

/-! ### Transport model

Each HTTP GET issued through httpx either yields a response (status code, raw
text and the outcome of `response.json()`), raises `httpx.RequestError`, or
raises some other exception (e.g. a timeout subclass); the three operations
interrogate the remote API only through such outcomes, so the remote API is
modelled as a function from the emitted request data to an outcome. -/

/-- Outcome of one HTTP GET. -/
inductive HttpOutcome where
  | resp (status : Nat) (text : String) (body : Except String JValue)
  | reqError (msg : String)
  | otherExn (msg : String)
deriving Repr

/-- httpx `raise_for_status` raises unless the status is a 2xx success. -/
def is2xx (status : Nat) : Bool := 200 ≤ status && status ≤ 299

/-- Headers attached to every request (source lines 106-109: the API key when
configured). -/
def buildHeaders : Option String → List (String × String)
  | none => []
  | some k => [("x-api-key", k)]

/-- Models `str(e)` for an `httpx.HTTPStatusError` (the exact wording is not
observable by any claim; only its occurrence is). -/
def httpStatusErrStr (status : Nat) (text : String) : String :=
  "HTTP status error: " ++ toString status ++ " - " ++ text

/-! ### Query builder for `search_papers_via_semanticscholar`
(source lines 57-102) -/

/-- The `year` parameter (source lines 65-73).  Python evaluates `year_from or
year_to` and the inner conditions by truthiness, so a zero year behaves as
unset. -/
def yearParamOpt (year_from year_to : Option Int) : Option String :=
  if optIntTruthy year_from || optIntTruthy year_to then
    some (if optIntTruthy year_from && optIntTruthy year_to then
        optIntStr year_from ++ "-" ++ optIntStr year_to
      else if optIntTruthy year_from then optIntStr year_from ++ "-"
      else "-" ++ optIntStr year_to)
  else none

/-- The `sort` parameter (source lines 76-80). -/
def sortParamOpt (sort_by : String) : Option String :=
  if !sort_by.isEmpty && sort_by != "relevance" then
    if sort_by == "citationCount" then some "citationCount:desc"
    else if sort_by == "year" then some "year:desc"
    else none
  else none

/-- Translation of a parsed advanced-filter dict into the remote API's filter
grammar (source lines 87-97). -/
def translateFilters (items : List (String × JValue)) : List (String × JValue) :=
  items.foldl (fun acc kv =>
    if kv.1 == "venue" && kv.2.truthy then setKey acc "venue" kv.2
    else if kv.1 == "fields_of_study" && kv.2.truthy then
      setKey acc "fieldsOfStudy" (.obj [("$in", kv.2)])
    else if kv.1 == "publication_types" && kv.2.truthy then
      setKey acc "publicationTypes" (.obj [("$in", kv.2)])
    else if kv.1 == "min_citation_count" && kv.2.truthy then
      setKey acc "citationCount" (.obj [("$gte", kv.2)])
    else if kv.1 == "is_open_access" && kv.2.truthy then
      setKey acc "isOpenAccess" kv.2
    else acc) []

/-- Advanced-filter processing (source lines 83-99): skipped when the string
is falsy (empty); a JSON decode error is logged (returned as the warning list)
and ignored; a parse to a non-dict value raises `AttributeError` from
`filter_dict.items()`, which no surrounding handler catches.  `jsonLoads` is
the oracle standing for the stdlib `json.loads`. -/
def processAdvancedFilters (jsonLoads : String → Except Unit JValue) :
    Option String → Except PyErr (List (String × JValue) × List String)
  | none => .ok ([], [])
  | some s =>
    if !s.isEmpty then
      match jsonLoads s with
      | .error _ => .ok ([], ["Invalid JSON in advanced_filters: " ++ s])
      | .ok (.obj items) => .ok (translateFilters items, [])
      | .ok other => .error (.attributeError
          ("\x27" ++ other.typeName ++ "\x27 object has no attribute \x27items\x27"))
    else .ok ([], [])

/-- The advanced-filter inputs on which `search_papers_via_semanticscholar`
does not raise while parsing filters: nothing supplied, a falsy (empty)
string, undecodable JSON, or JSON whose top level is an object. -/
def FilterSafe (jsonLoads : String → Except Unit JValue) : Option String → Bool
  | none => true
  | some s =>
    s.isEmpty ||
      (match jsonLoads s with
       | .error _ => true
       | .ok (.obj _) => true
       | .ok _ => false)

/-- The assembled parameter list of the paper search given the processed
filter dict: base parameters, then the optional `year`, `sort` and `filter`
entries in the order the source inserts them (source lines 57-102). -/
def searchParamsList (keyword : String) (limit : Int)
    (year_from year_to : Option Int) (sort_by : String)
    (filters : List (String × JValue)) : List (String × String) :=
  [("query", keyword), ("limit", toString limit), ("fields", FIELDS)]
  ++ (match yearParamOpt year_from year_to with
      | some y => [("year", y)]
      | none => [])
  ++ (match sortParamOpt sort_by with
      | some sv => [("sort", sv)]
      | none => [])
  ++ (if filters.isEmpty then [] else [("filter", jsonDumps (.obj filters))])

/-- Full query-parameter assembly for the paper search (source lines 57-102),
also returning the warnings logged while processing advanced filters. -/
def searchParams (jsonLoads : String → Except Unit JValue) (keyword : String)
    (limit : Int) (year_from year_to : Option Int) (sort_by : String)
    (advanced_filters : Option String) :
    Except PyErr (List (String × String) × List String) := do
  let fw ← processAdvancedFilters jsonLoads advanced_filters
  pure (searchParamsList keyword limit year_from year_to sort_by fw.1, fw.2)

/-! ### Per-paper enrichment loop (source lines 118-133) -/

/-- The secondary details URL built for one paper (source line 124). -/
def enrichUrl (paperId : JValue) : String :=
  PAPER_DETAILS_URL ++ pyStr paperId ++ "?fields=" ++ FIELDS ++
    ",references.limit(5),citations.limit(5)"

/-- The warning logged when a secondary details fetch fails
(source line 133). -/
def enrichWarn (paperId : JValue) (msg : String) : String :=
  "Failed to get details for paper " ++ pyStr paperId ++ ": " ++ msg

/-- Enrichment of one search result (source lines 121-133).  The inner
`try`/`except Exception` catches every exception from the GET, the JSON
decoding and the detail-dict accesses, logging a warning and leaving the paper
unchanged; a non-200 response is skipped silently (no log); only
`paper.get('paperId')` itself sits outside that handler.  Returns the
(possibly enriched) paper together with the warnings logged. -/
def enrichPaper (detail : String → List (String × String) → HttpOutcome)
    (headers : List (String × String)) (paper : JValue) :
    Except PyErr (JValue × List String) := do
  let pid ← paper.getD "paperId" .null
  if pid.truthy then
    match detail (enrichUrl pid) headers with
    | .reqError m => pure (paper, [enrichWarn pid m])
    | .otherExn m => pure (paper, [enrichWarn pid m])
    | .resp status _ body =>
      if status == 200 then
        match body with
        | .error m => pure (paper, [enrichWarn pid m])
        | .ok det =>
          match (do
            let r ← det.getD "references" (.arr [])
            let c ← det.getD "citations" (.arr [])
            let t ← det.getD "tldr" (.obj [])
            pure (r, c, t) : Except PyErr (JValue × JValue × JValue)) with
          | .error e => pure (paper, [enrichWarn pid e.msg])
          | .ok rct =>
            pure (((paper.setKey "references" rct.1).setKey "citations"
              rct.2.1).setKey "tldr" rct.2.2, [])
      else pure (paper, [])
  else pure (paper, [])

/-- The enrichment pass over the whole response (source lines 118-133):
`if data.get('data') and len(data['data']) > 0: for paper in data['data']:`.
Exceptions escaping here are caught by the operation's outer
`except Exception`. -/
def enrichData (detail : String → List (String × String) → HttpOutcome)
    (headers : List (String × String)) (data : JValue) :
    Except PyErr (JValue × List String) := do
  let dd ← data.getD "data" .null
  if dd.truthy then do
    let di ← data.getItem "data"
    let n ← pyLen di
    if n > 0 then do
      let papers ← pyIter di
      let results ← mapE (enrichPaper detail headers) papers
      pure (data.setKey "data" (.arr (results.map Prod.fst)),
        (results.map Prod.snd).flatten)
    else pure (data, [])
  else pure (data, [])

/-! ### Search result renderer (source lines 148-301) -/

/-- Publication-type tag on the title line (source lines 157-158). -/
def pubTypeStr (paper : JValue) : Except PyErr String := do
  let pt ← paper.getD "publicationTypes" (.arr [])
  if pt.truthy then do
    let sl ← pySliceTo pt 2
    let xs ← pyIter sl
    let j ← joinStrs ", " xs
    pure (" [" ++ j ++ "]")
  else pure ""

/-- One author of the search-result authors line (source lines 167-174):
a markdown link when an `authorId` is present, the bare name otherwise. -/
def searchAuthorItem (a : JValue) : Except PyErr String := do
  let nm ← a.getD "name" (.str "")
  let aid ← a.getD "authorId" (.str "")
  if aid.truthy then
    pure ("[" ++ pyStr nm ++ "](https://www.semanticscholar.org/author/"
      ++ pyStr aid ++ ")")
  else pure (pyStr nm)

/-- The authors line of one search result (source lines 162-179): the first
five authors are rendered (as links when an authorId is present) and a longer
list gets an `and N others` suffix. -/
def searchResultAuthorsBlock (paper : JValue) : Except PyErr String := do
  let au ← paper.getD "authors" .null
  if au.truthy then do
    let aup ← paper.getItem "authors"
    let sl ← pySliceTo aup 5
    let elems ← pyIter sl
    let names ← mapE searchAuthorItem elems
    let core := String.intercalate ", " names
    let aup2 ← paper.getItem "authors"
    let n ← pyLen aup2
    let suffix := if n > 5 then " and " ++ toString (n - 5) ++ " others" else ""
    pure ("👥 **Authors:** " ++ core ++ suffix ++ "\n\n")
  else pure ""

/-- `venue = paper.get('venue', 'N/A')` (source line 182). -/
def venueVal (paper : JValue) : Except PyErr JValue :=
  paper.getD "venue" (.str "N/A")

/-- `journal_name = journal.get('name') if journal else None`
(source lines 183-184). -/
def journalNameVal (paper : JValue) : Except PyErr JValue := do
  let j ← paper.getD "journal" (.obj [])
  if j.truthy then j.getD "name" .null
  else pure .null

/-- Publication date line (source lines 192-199); the bare `except:` around
the ISO parse means this never raises. -/
def pubDateLine (paper : JValue) : Except PyErr String := do
  let yDefault ← paper.getD "year" (.str "N/A")
  let pd ← paper.getD "publicationDate" yDefault
  let yAgain ← paper.getD "year" (.str "N/A")
  pure (if pd.truthy && !pyEq pd yAgain then
      match pd with
      | .str s =>
        match parseIsoDate s with
        | some pretty => "📅 **Published:** " ++ pretty ++ "\n"
        | none => "📅 **Published:** " ++ s ++ "\n"
      | other => "📅 **Published:** " ++ pyStr other ++ "\n"
    else "")

/-- Citation metric lines (source lines 202-209). -/
def metricsLines (paper : JValue) : Except PyErr String := do
  let c ← paper.getD "citationCount" (.num 0)
  let ic ← paper.getD "influentialCitationCount" (.num 0)
  let r ← paper.getD "referenceCount" (.num 0)
  let cs ← formatComma c
  let mid ← if ic.truthy then do
      let ics ← formatComma ic
      pure (", " ++ ics ++ " influential")
    else pure ""
  let rs ← formatComma r
  pure ("📊 **Citations:** " ++ cs ++ " total" ++ mid ++
    "\n📚 **References:** " ++ rs ++ "\n")

/-- Fields-of-study line (source lines 212-213). -/
def fieldsLine (paper : JValue) : Except PyErr String := do
  let f ← paper.getD "fieldsOfStudy" .null
  if f.truthy then do
    let f2 ← paper.getD "fieldsOfStudy" (.arr [])
    let xs ← pyIter f2
    let j ← joinStrs ", " xs
    pure ("🔬 **Fields:** " ++ j ++ "\n")
  else pure ""

/-- External identifiers line (source lines 220-234). -/
def externalIdsBlock (paper : JValue) : Except PyErr String := do
  let e ← paper.getD "externalIds" .null
  if e.truthy then do
    let ext ← paper.getItem "externalIds"
    let doi ← ext.getD "DOI" .null
    let ids1 := if doi.truthy then
        ["DOI: [" ++ pyStr doi ++ "](https://doi.org/" ++ pyStr doi ++ ")"]
      else []
    let ax ← ext.getD "ArXiv" .null
    let ids2 := ids1 ++ (if ax.truthy then
        ["arXiv: [" ++ pyStr ax ++ "](https://arxiv.org/abs/" ++ pyStr ax ++ ")"]
      else [])
    let pm ← ext.getD "PubMed" .null
    let ids3 := ids2 ++ (if pm.truthy then ["PubMed: " ++ pyStr pm] else [])
    let ci ← ext.getD "CorpusId" .null
    let ids4 := ids3 ++ (if ci.truthy then ["Corpus ID: " ++ pyStr ci] else [])
    pure ("🔗 **Identifiers:** " ++ String.intercalate ", " ids4 ++ "\n")
  else pure ""

/-- TL;DR line (source lines 237-238). -/
def tldrLine (paper : JValue) : Except PyErr String := do
  let t ← paper.getD "tldr" .null
  if t.truthy then do
    let ti ← paper.getItem "tldr"
    let tx ← ti.getD "text" .null
    if tx.truthy then do
      let txt ← ti.getItem "text"
      pure ("💡 **TL;DR:** " ++ pyStr txt ++ "\n")
    else pure ""
  else pure ""

/-- Abstract block (source lines 241-242). -/
def abstractBlock (paper : JValue) : Except PyErr String := do
  let a ← paper.getD "abstract" .null
  if a.truthy then do
    let av ← paper.getItem "abstract"
    pure ("\n📝 **Abstract:**\n" ++ pyStr av ++ "\n")
  else pure ""

/-- Python `a.get('name', '')`, the comprehension body shared by every
author-name join in the source. -/
def entryNameItem (a : JValue) : Except PyErr JValue := a.getD "name" (.str "")

/-- The joined author names of a nested citation/reference entry (source
lines 250-252 and 261-263): all names are computed, the first three are
joined, and a longer list appends ` et al.`. -/
def nestedAuthorsStr (entry : JValue) : Except PyErr String := do
  let au ← entry.getD "authors" (.arr [])
  let elems ← pyIter au
  let names ← mapE entryNameItem elems
  let s ← joinStrs ", " (names.take 3)
  let au2 ← entry.getD "authors" (.arr [])
  if au2.truthy then do
    let ai ← entry.getItem "authors"
    let n ← pyLen ai
    pure (if n > 3 then s ++ " et al." else s)
  else pure s

/-- One nested citation/reference entry line (source lines 248-253 /
259-264). -/
def nestedEntryLine (i : Nat) (entry : JValue) : Except PyErr String := do
  let t ← entry.getD "title" (.str "Untitled")
  let y ← entry.getD "year" (.str "N/A")
  let a ← nestedAuthorsStr entry
  pure (toString i ++ ". " ++ pyStr t ++ " (" ++ pyStr y ++ ") - " ++ a ++ "\n")

/-- Key citations block (source lines 245-253). -/
def citationsBlock (paper : JValue) : Except PyErr String := do
  let c ← paper.getD "citations" .null
  if c.truthy then do
    let ci ← paper.getItem "citations"
    let n ← pyLen ci
    if n > 0 then do
      let sl ← pySliceTo ci 3
      let entries ← pyIter sl
      let lines ← mapIdxE nestedEntryLine 1 entries
      pure ("\n📣 **Key Citations:**\n" ++ String.join lines)
    else pure ""
  else pure ""

/-- Key references block (source lines 256-264). -/
def referencesBlock (paper : JValue) : Except PyErr String := do
  let r ← paper.getD "references" .null
  if r.truthy then do
    let ri ← paper.getItem "references"
    let n ← pyLen ri
    if n > 0 then do
      let sl ← pySliceTo ri 3
      let entries ← pyIter sl
      let lines ← mapIdxE nestedEntryLine 1 entries
      pure ("\n📚 **Key References:**\n" ++ String.join lines)
    else pure ""
  else pure ""

/-- Paper link block (source lines 267-272). -/
def urlBlock (paper : JValue) : Except PyErr String := do
  let u ← paper.getD "url" .null
  if u.truthy then do
    let uv ← paper.getItem "url"
    pure ("\n🌐 **Full Paper:** [View on Semantic Scholar](" ++ pyStr uv ++ ")\n")
  else do
    let pid ← paper.getD "paperId" .null
    if pid.truthy then
      pure ("\n🌐 **Paper Link:** [View on Semantic Scholar](https://www.semanticscholar.org/paper/"
        ++ pyStr pid ++ ")\n")
    else pure ""

/-- Per-result citation block (source lines 275-289): six authors joined,
` et al.` beyond that, year/title, journal-or-venue, DOI link. -/
def citationFooter (paper : JValue) : Except PyErr String := do
  let au ← paper.getD "authors" (.arr [])
  let elems ← pyIter au
  let names ← mapE entryNameItem elems
  let ac ← joinStrs ", " (names.take 6)
  let au2 ← paper.getD "authors" (.arr [])
  let ac2 ← if au2.truthy then do
      let ai ← paper.getItem "authors"
      let n ← pyLen ai
      pure (if n > 6 then ac ++ " et al." else ac)
    else pure ac
  let jn ← journalNameVal paper
  let ven ← venueVal paper
  let jv := if jn.truthy then jn else ven
  let y ← paper.getD "year" (.str "n.d.")
  let t ← paper.getD "title" (.str "Untitled")
  let s1 := "\n📋 **Citation:**\n\x60\x60\x60\n" ++ ac2 ++ ". (" ++ pyStr y
    ++ "). " ++ pyStr t ++ ". "
  let s2 := if jv.truthy then pyStr jv ++ ". " else ""
  let ei ← paper.getD "externalIds" (.obj [])
  let doi ← ei.getD "DOI" .null
  let s3 := if doi.truthy then "https://doi.org/" ++ pyStr doi else ""
  pure (s1 ++ s2 ++ s3 ++ "\n\x60\x60\x60\n")

/-- One numbered search-result section (source lines 155-291). -/
def paperSection (idx : Nat) (paper : JValue) : Except PyErr String := do
  let pts ← pubTypeStr paper
  let t ← paper.getD "title" (.str "Untitled")
  let y ← paper.getD "year" (.str "N/A")
  let head := "## " ++ toString idx ++ ". " ++ pyStr t ++ " (" ++ pyStr y ++ ")"
    ++ pts ++ "\n\n"
  let authorsB ← searchResultAuthorsBlock paper
  let jn ← journalNameVal paper
  let ven ← venueVal paper
  let jvLine := if jn.truthy then "📍 **Journal:** " ++ pyStr jn ++ "\n"
    else if ven.truthy then "📍 **Venue:** " ++ pyStr ven ++ "\n"
    else ""
  let pdL ← pubDateLine paper
  let met ← metricsLines paper
  let fof ← fieldsLine paper
  let io2 ← paper.getD "isOpenAccess" (.bool false)
  let oa := "🔓 **Open Access:** " ++ (if io2.truthy then "Yes" else "No") ++ "\n"
  let ext ← externalIdsBlock paper
  let tl ← tldrLine paper
  let ab ← abstractBlock paper
  let cb ← citationsBlock paper
  let rb ← referencesBlock paper
  let ub ← urlBlock paper
  let cf ← citationFooter paper
  pure (head ++ authorsB ++ jvLine ++ pdL ++ met ++ fof ++ oa ++ ext ++ tl
    ++ ab ++ cb ++ rb ++ ub ++ cf ++ "\n---\n\n")

/-- The fixed export-options footer (source lines 294-299). -/
def exportFooter : String :=
  "\n## 📥 Export Options\n\n"
  ++ "To cite these papers in your research, you can use the following formats:\n\n"
  ++ "- **APA**: Author, A. A., & Author, B. B. (Year). Title of article. *Journal Title*, Volume(Issue), page range. https://doi.org/xxxx\n"
  ++ "- **MLA**: Author Surname, First Name. \"Title of Article.\" *Journal Title*, vol. number, no. number, Year, pp. range. DOI or URL.\n"
  ++ "- **Chicago**: Author Surname, First Name. Year. \"Title of Article.\" *Journal Title* Volume, no. Issue (Year): Page range. DOI or URL.\n\n"
  ++ "For more citation options or to download citations in BibTeX format, click on the paper links to visit Semantic Scholar.\n"

/-- The search listing (source lines 148-301): the no-results message when
`data` is falsy, otherwise the header, one section per result and the
footer. -/
def renderPapersResult (keyword sort_by : String) (data : JValue) :
    Except PyErr String := do
  let dd ← data.getD "data" .null
  if !dd.truthy then pure "No papers found matching your search criteria."
  else do
    let tot ← data.getD "total" (.num 0)
    let ts ← formatComma tot
    let di ← data.getItem "data"
    let n ← pyLen di
    let header := "# Academic Search Results for \x27" ++ keyword ++ "\x27\n\n"
      ++ "📚 Found " ++ ts ++ " papers. Showing " ++ toString n
      ++ " results sorted by " ++ sort_by ++ ":\n\n"
    let papers ← pyIter di
    let secs ← mapIdxE paperSection 1 papers
    pure (header ++ String.join secs ++ exportFooter)

/-! ### The paper search operation (source lines 42-301) -/

/-- `search_papers_via_semanticscholar`: assembles the query parameters
(raising on a non-dict advanced filter), issues the primary GET, enriches each
result with a secondary GET, and renders; every transport failure inside the
`try` is converted to an error string, while exceptions raised by the
renderer (outside the `try`) propagate. -/
def search_papers_via_semanticscholar
    (jsonLoads : String → Except Unit JValue) (apiKey : Option String)
    (keyword : String) (limit : Int) (year_from year_to : Option Int)
    (sort_by : String) (advanced_filters : Option String)
    (primary : List (String × String) → List (String × String) → HttpOutcome)
    (detail : String → List (String × String) → HttpOutcome) :
    Except PyErr String := do
  let pw ← searchParams jsonLoads keyword limit year_from year_to sort_by
    advanced_filters
  let headers := buildHeaders apiKey
  match primary pw.1 headers with
  | .reqError m =>
    pure ("Error: Failed to connect to Semantic Scholar API. Request error occurred: " ++ m)
  | .otherExn m =>
    pure ("Error: An unexpected error occurred. Unexpected error: " ++ m)
  | .resp status text body =>
    if !is2xx status then
      pure ("Error: Failed to retrieve data from Semantic Scholar API. HTTP error occurred: "
        ++ toString status ++ " - " ++ text)
    else
      match body with
      | .error m =>
        pure ("Error: An unexpected error occurred. Unexpected error: " ++ m)
      | .ok data =>
        match enrichData detail headers data with
        | .error e =>
          pure ("Error: An unexpected error occurred. Unexpected error: " ++ e.msg)
        | .ok dataLogs => renderPapersResult keyword sort_by dataLogs.1

/-! ### Paper-detail renderer (source lines 355-621) -/

/-- Python `s.startswith(prefix)`. -/
def pyStartsWith (s prefix0 : String) : Bool :=
  charsPrefixOf prefix0.toList s.toList

/-- Endpoint selection (source lines 313-319): inputs starting with `10.` or
containing a slash route to the DOI form. -/
def detailEndpoint (paper_id : String) : String :=
  if pyStartsWith paper_id "10." || pyInStr "/" paper_id then
    PAPER_DETAILS_URL ++ "DOI:" ++ paper_id
  else PAPER_DETAILS_URL ++ paper_id

/-- The `fields` parameter of the detail request (source lines 322-331). -/
def detailFieldsParam (include_references include_citations : Bool) : String :=
  String.intercalate ","
    ((FIELDS.splitOn ",")
      ++ (if include_references then ["references.limit(20)"] else [])
      ++ (if include_citations then ["citations.limit(20)"] else []))

/-- Authors section of the detail page (source lines 369-383). -/
def detailAuthorsSection (data : JValue) : Except PyErr String := do
  let a ← data.getD "authors" .null
  if a.truthy then do
    let ai ← data.getItem "authors"
    let elems ← pyIter ai
    let lines ← mapE (fun author => do
      let nm ← author.getD "name" (.str "Unknown")
      let aid ← author.getD "authorId" .null
      let base := if aid.truthy then
          "- [" ++ pyStr nm ++ "](https://www.semanticscholar.org/author/"
            ++ pyStr aid ++ ")"
        else "- " ++ pyStr nm
      let aff ← author.getD "affiliations" .null
      let affs ← if aff.truthy then do
          let afi ← author.getItem "affiliations"
          let xs ← pyIter afi
          let js ← joinStrs ", " xs
          pure (" (" ++ js ++ ")")
        else pure ""
      pure (base ++ affs ++ "\n")) elems
    pure ("## 👥 Authors\n\n" ++ String.join lines ++ "\n")
  else pure ""

/-- Journal/venue section of the detail page (source lines 386-397). -/
def detailJournalSection (data : JValue) : Except PyErr String := do
  let j ← data.getD "journal" (.obj [])
  let ven ← data.getD "venue" .null
  if j.truthy then do
    let jn ← j.getD "name" .null
    if jn.truthy then do
      let jn2 ← j.getD "name" .null
      let line1 := "**Journal:** " ++ pyStr jn2 ++ "\n"
      let vol ← j.getD "volume" .null
      let rest ← if vol.truthy then do
          let vol2 ← j.getD "volume" .null
          let pg ← j.getD "pages" .null
          let mid ← if pg.truthy then do
              let pg2 ← j.getD "pages" .null
              pure (", Pages: " ++ pyStr pg2)
            else pure ""
          pure ("**Volume:** " ++ pyStr vol2 ++ mid ++ "\n")
        else pure ""
      pure (line1 ++ rest)
    else if ven.truthy then pure ("**Publication Venue:** " ++ pyStr ven ++ "\n")
    else pure ""
  else if ven.truthy then pure ("**Publication Venue:** " ++ pyStr ven ++ "\n")
  else pure ""

/-- Impact metrics section of the detail page (source lines 400-411). -/
def detailMetricsSection (data : JValue) : Except PyErr String := do
  let c ← data.getD "citationCount" (.num 0)
  let ic ← data.getD "influentialCitationCount" (.num 0)
  let r ← data.getD "referenceCount" (.num 0)
  let cs ← formatComma c
  let ics ← formatComma ic
  let rs ← formatComma r
  let io2 ← data.getD "isOpenAccess" (.bool false)
  pure ("## 📊 Impact Metrics\n\n"
    ++ "- **Total Citations:** " ++ cs ++ "\n"
    ++ "- **Influential Citations:** " ++ ics ++ "\n"
    ++ "- **References:** " ++ rs ++ "\n"
    ++ "- **Open Access:** " ++ (if io2.truthy then "Yes ✓" else "No ✗") ++ "\n\n")

/-- Identifiers section of the detail page (source lines 414-430). -/
def detailIdsSection (data : JValue) : Except PyErr String := do
  let e ← data.getD "externalIds" .null
  if e.truthy then do
    let ext ← data.getItem "externalIds"
    let doi ← ext.getD "DOI" .null
    let l1 := if doi.truthy then
        "- **DOI:** [" ++ pyStr doi ++ "](https://doi.org/" ++ pyStr doi ++ ")\n"
      else ""
    let ax ← ext.getD "ArXiv" .null
    let l2 := if ax.truthy then
        "- **arXiv:** [" ++ pyStr ax ++ "](https://arxiv.org/abs/" ++ pyStr ax ++ ")\n"
      else ""
    let pm ← ext.getD "PubMed" .null
    let l3 := if pm.truthy then "- **PubMed:** " ++ pyStr pm ++ "\n" else ""
    let db ← ext.getD "DBLP" .null
    let l4 := if db.truthy then "- **DBLP:** " ++ pyStr db ++ "\n" else ""
    let ci ← ext.getD "CorpusId" .null
    let l5 := if ci.truthy then "- **Corpus ID:** " ++ pyStr ci ++ "\n" else ""
    let pid ← data.getD "paperId" .null
    let l6 ← if pid.truthy then do
        let pv ← data.getItem "paperId"
        pure ("- **Semantic Scholar ID:** " ++ pyStr pv ++ "\n")
      else pure ""
    pure ("## 🔗 Identifiers\n\n" ++ l1 ++ l2 ++ l3 ++ l4 ++ l5 ++ l6 ++ "\n")
  else pure ""

/-- Research fields section of the detail page (source lines 433-437). -/
def detailFieldsSection (data : JValue) : Except PyErr String := do
  let f ← data.getD "fieldsOfStudy" .null
  if f.truthy then do
    let f2 ← data.getD "fieldsOfStudy" (.arr [])
    let xs ← pyIter f2
    let lines := xs.map fun x => "- " ++ pyStr x ++ "\n"
    pure ("## 🔬 Research Fields\n\n" ++ String.join lines ++ "\n")
  else pure ""

/-- TL;DR section of the detail page (source lines 440-442). -/
def detailTldrSection (data : JValue) : Except PyErr String := do
  let t ← data.getD "tldr" .null
  if t.truthy then do
    let ti ← data.getItem "tldr"
    let tx ← ti.getD "text" .null
    if tx.truthy then do
      let txt ← ti.getItem "text"
      pure ("## 💡 TL;DR\n\n" ++ pyStr txt ++ "\n\n")
    else pure ""
  else pure ""

/-- Abstract section of the detail page (source lines 445-447). -/
def detailAbstractSection (data : JValue) : Except PyErr String := do
  let a ← data.getD "abstract" .null
  if a.truthy then do
    let av ← data.getItem "abstract"
    pure ("## 📝 Abstract\n\n" ++ pyStr av ++ "\n\n")
  else pure ""

/-- Authors line of one detail-page citation entry (source lines 459-463):
all names computed, the first five joined, ` et al.` beyond five. -/
def detailCitationAuthorsBlock (citation : JValue) : Except PyErr String := do
  let au ← citation.getD "authors" .null
  if au.truthy then do
    let au2 ← citation.getD "authors" (.arr [])
    let elems ← pyIter au2
    let names ← mapE entryNameItem elems
    let s ← joinStrs ", " (names.take 5)
    let ai ← citation.getItem "authors"
    let n ← pyLen ai
    let s2 := if n > 5 then s ++ " et al." else s
    pure ("**Authors:** " ++ s2 ++ "\n")
  else pure ""

/-- One detail-page citation entry (source lines 452-474). -/
def detailCitationEntry (cs : String) (i : Nat) (citation : JValue) :
    Except PyErr String := do
  let t ← citation.getD "title" (.str "Untitled")
  let y ← citation.getD "year" (.str "N/A")
  let cc ← citation.getD "citationCount" (.num 0)
  let ccs ← formatComma cc
  let head := "### " ++ toString i ++ ". " ++ pyStr t ++ " (" ++ pyStr y
    ++ ") - " ++ ccs ++ " citations\n"
  let ab ← detailCitationAuthorsBlock citation
  let abt ← citation.getD "abstract" .null
  let absLine ← if abt.truthy then do
      let av ← citation.getItem "abstract"
      let n ← pyLen av
      let shown ← if n > 200 then do
          let sl ← pySliceTo av 200
          pyAddStr sl "..."
        else pure av
      pure ("**Abstract:** " ++ pyStr shown ++ "\n")
    else pure ""
  let u ← citation.getD "url" .null
  let uLine ← if u.truthy then do
      let uv ← citation.getItem "url"
      pure ("[View Paper](" ++ pyStr uv ++ ")\n")
    else pure ""
  let _ := cs
  pure (head ++ ab ++ absLine ++ uLine ++ "\n")

/-- Key citations section of the detail page (source lines 450-474). -/
def detailCitationsSection (include_citations : Bool) (data : JValue) :
    Except PyErr String := do
  if include_citations then do
    let c ← data.getD "citations" .null
    if c.truthy then do
      let ci ← data.getItem "citations"
      let n ← pyLen ci
      if n > 0 then do
        let totC ← data.getD "citationCount" (.num 0)
        let totCs ← formatComma totC
        let header := "## 📣 Key Citations (" ++ toString (min n 20) ++ " of "
          ++ totCs ++ ")\n\n"
        let entries ← pyIter ci
        let lines ← mapIdxE (detailCitationEntry totCs) 1 entries
        pure (header ++ String.join lines)
      else pure ""
    else pure ""
  else pure ""

/-- Authors line of one detail-page reference entry (source lines 485-489):
first three names joined, ` et al.` beyond three. -/
def detailRefAuthorsBlock (reference : JValue) : Except PyErr String := do
  let au ← reference.getD "authors" .null
  if au.truthy then do
    let au2 ← reference.getD "authors" (.arr [])
    let elems ← pyIter au2
    let names ← mapE entryNameItem elems
    let s ← joinStrs ", " (names.take 3)
    let ai ← reference.getItem "authors"
    let n ← pyLen ai
    let s2 := if n > 3 then s ++ " et al." else s
    pure ("   *" ++ s2 ++ "*\n")
  else pure ""

/-- One detail-page reference entry (source lines 479-494). -/
def detailReferenceEntry (i : Nat) (reference : JValue) : Except PyErr String := do
  let t ← reference.getD "title" (.str "Untitled")
  let y ← reference.getD "year" (.str "N/A")
  let head := toString i ++ ". **" ++ pyStr t ++ "** (" ++ pyStr y ++ ")\n"
  let ab ← detailRefAuthorsBlock reference
  let u ← reference.getD "url" .null
  let uLine ← if u.truthy then do
      let uv ← reference.getItem "url"
      pure ("   [View Paper](" ++ pyStr uv ++ ")\n")
    else pure ""
  pure (head ++ ab ++ uLine ++ "\n")

/-- References section of the detail page (source lines 477-494). -/
def detailReferencesSection (include_references : Bool) (data : JValue) :
    Except PyErr String := do
  if include_references then do
    let r ← data.getD "references" .null
    if r.truthy then do
      let ri ← data.getItem "references"
      let n ← pyLen ri
      if n > 0 then do
        let totR ← data.getD "referenceCount" (.num 0)
        let totRs ← formatComma totR
        let header := "## 📚 References (" ++ toString (min n 20) ++ " of "
          ++ totRs ++ ")\n\n"
        let entries ← pyIter ri
        let lines ← mapIdxE detailReferenceEntry 1 entries
        pure (header ++ String.join lines)
      else pure ""
    else pure ""
  else pure ""

/-- Access section of the detail page (source lines 497-499). -/
def detailAccessSection (data : JValue) : Except PyErr String := do
  let u ← data.getD "url" .null
  if u.truthy then do
    let uv ← data.getItem "url"
    pure ("## 🌐 Access\n\n[View Full Paper on Semantic Scholar](" ++ pyStr uv ++ ")\n\n")
  else pure ""

/-- Citation-formats section of the detail page (source lines 502-619): APA,
MLA and BibTeX blocks assembled from the record.  `journal_name` is
`journal.get('name') if journal else (venue or 'Unknown Journal')`, so it can
be `None`; the BibTeX entry-type classification then evaluates
`"Conference" in None` and raises `TypeError`. -/
def citationFormatsSection (data : JValue) : Except PyErr String := do
  let j ← data.getD "journal" (.obj [])
  let ven ← data.getD "venue" .null
  let auv ← data.getD "authors" (.arr [])
  let elems ← pyIter auv
  let names ← mapE entryNameItem elems
  let authors_list := if names.isEmpty then [JValue.str "Unknown Author"] else names
  let title ← data.getD "title" (.str "Untitled")
  let year ← data.getD "year" (.str "n.d.")
  let journal_name ← if j.truthy then j.getD "name" .null
    else pure (if ven.truthy then ven else .str "Unknown Journal")
  let volume ← if j.truthy then j.getD "volume" (.str "") else pure (.str "")
  let issue ← if j.truthy then j.getD "issue" (.str "") else pure (.str "")
  let pages ← if j.truthy then j.getD "pages" (.str "") else pure (.str "")
  let ei ← data.getD "externalIds" (.obj [])
  let doi ← ei.getD "DOI" (.str "")
  let apaAuthors := match authors_list with
    | [a0] => pyStr a0 ++ ". "
    | [a0, a1] => pyStr a0 ++ " & " ++ pyStr a1 ++ ". "
    | a0 :: _ :: _ :: _ => pyStr a0 ++ " et al. "
    | [] => ""
  let apaJournal := if !pyEq journal_name (.str "Unknown Journal") then
      "*" ++ pyStr journal_name ++ "*"
      ++ (if volume.truthy then
            ", " ++ pyStr volume
            ++ (if issue.truthy then "(" ++ pyStr issue ++ ")" else "")
          else "")
      ++ (if pages.truthy then ", " ++ pyStr pages else "")
    else ""
  let apa := "**APA:**\n\x60\x60\x60\n" ++ apaAuthors ++ "(" ++ pyStr year
    ++ "). " ++ pyStr title ++ ". " ++ apaJournal
    ++ (if doi.truthy then ". https://doi.org/" ++ pyStr doi else "")
    ++ "\n\x60\x60\x60\n\n"
  let mlaAuthor ← (match authors_list with
    | a0 :: _ =>
      if a0.truthy then
        match a0 with
        | .str s =>
          let name_parts := pySplitWs s
          let headPart := if name_parts.length > 1 then
              (name_parts.getLast?.getD "") ++ ", "
                ++ String.intercalate " " name_parts.dropLast
            else s
          pure (headPart ++ (if authors_list.length > 1 then ", et al" else ""))
        | other => Except.error (.attributeError
            ("\x27" ++ other.typeName ++ "\x27 object has no attribute \x27split\x27"))
      else pure "Unknown Author"
    | [] => pure "Unknown Author")
  let mla := "**MLA:**\n\x60\x60\x60\n" ++ mlaAuthor ++ ". \"" ++ pyStr title
    ++ ".\" *" ++ pyStr journal_name ++ "*"
    ++ (if volume.truthy then ", vol. " ++ pyStr volume else "")
    ++ (if issue.truthy then ", no. " ++ pyStr issue else "")
    ++ (if !pyEq year (.str "n.d.") then ", " ++ pyStr year else "")
    ++ (if pages.truthy then ", pp. " ++ pyStr pages else "")
    ++ (if doi.truthy then ", doi:" ++ pyStr doi else "")
    ++ ".\n\x60\x60\x60\n\n"
  let confB ← pyInJ "Conference" journal_name
  let entry_type ← if confB then pure "inproceedings"
    else do
      let procB ← pyInJ "Proceedings" journal_name
      if procB then pure "inproceedings"
      else do
        let thesisB ← pyInJ "Thesis" journal_name
        if thesisB then pure "phdthesis"
        else do
          let jn ← j.getD "name" .null
          if !jn.truthy && !volume.truthy then pure "misc" else pure "article"
  let first_author_last ← (match authors_list with
    | a0 :: _ =>
      if a0.truthy then
        match a0 with
        | .str s =>
          let parts := pySplitWs s
          pure (match parts.getLast? with
            | some l => l.toLower
            | none => "unknown")
        | other => Except.error (.attributeError
            ("\x27" ++ other.typeName ++ "\x27 object has no attribute \x27split\x27"))
      else pure "unknown"
    | [] => pure "unknown")
  let citation_key := first_author_last ++ pyStr year
  let authorsJoined ← joinStrs " and " authors_list
  let jn2 ← j.getD "name" .null
  let journalLine ← if jn2.truthy then do
      let jn3 ← j.getD "name" .null
      pure ("  journal = \x7b" ++ pyStr jn3 ++ "\x7d,\n")
    else pure (if ven.truthy then "  booktitle = \x7b" ++ pyStr ven ++ "\x7d,\n" else "")
  let urlv ← data.getD "url" .null
  let urlLine ← if urlv.truthy then do
      let uv ← data.getD "url" .null
      pure ("  url = \x7b" ++ pyStr uv ++ "\x7d,\n")
    else pure ""
  let bib := "**BibTeX:**\n\x60\x60\x60bibtex\n"
    ++ "@" ++ entry_type ++ "\x7b" ++ citation_key ++ ",\n"
    ++ "  title = \x7b" ++ pyStr title ++ "\x7d,\n"
    ++ (if authors_list.isEmpty then ""
        else "  author = \x7b" ++ authorsJoined ++ "\x7d,\n")
    ++ "  year = \x7b" ++ pyStr year ++ "\x7d,\n"
    ++ journalLine
    ++ (if volume.truthy then "  volume = \x7b" ++ pyStr volume ++ "\x7d,\n" else "")
    ++ (if issue.truthy then "  number = \x7b" ++ pyStr issue ++ "\x7d,\n" else "")
    ++ (if pages.truthy then "  pages = \x7b" ++ pyStr pages ++ "\x7d,\n" else "")
    ++ (if doi.truthy then "  doi = \x7b" ++ pyStr doi ++ "\x7d,\n" else "")
    ++ urlLine
    ++ "\x7d\n\x60\x60\x60\n"
  pure ("## 📋 Citation Formats\n\n" ++ apa ++ mla ++ bib)

/-- The full detail-page renderer (source lines 359-621). -/
def renderPaperDetails (include_references include_citations : Bool)
    (data : JValue) : Except PyErr String := do
  let t ← data.getD "title" (.str "Untitled Paper")
  let head := "# " ++ pyStr t ++ "\n\n"
  let py ← data.getD "year" (.str "N/A")
  let pt ← data.getD "publicationTypes" (.arr [])
  let pts ← if pt.truthy then do
      let xs ← pyIter pt
      let js ← joinStrs ", " xs
      pure (" [" ++ js ++ "]")
    else pure ""
  let pubLine := "**Published:** " ++ pyStr py ++ pts ++ "\n\n"
  let authsec ← detailAuthorsSection data
  let jl ← detailJournalSection data
  let met ← detailMetricsSection data
  let ids ← detailIdsSection data
  let flds ← detailFieldsSection data
  let tld ← detailTldrSection data
  let ab ← detailAbstractSection data
  let cits ← detailCitationsSection include_citations data
  let refs ← detailReferencesSection include_references data
  let acc ← detailAccessSection data
  let fmts ← citationFormatsSection data
  pure (head ++ pubLine ++ authsec ++ jl ++ met ++ ids ++ flds ++ tld ++ ab
    ++ cits ++ refs ++ acc ++ fmts)

/-- `get_paper_details` (source lines 303-621): endpoint selection, one GET,
error strings for transport failures (note the generic `except Exception`
also swallows request errors here), the falsy-body message, then the
renderer, whose exceptions propagate. -/
def get_paper_details (apiKey : Option String) (paper_id : String)
    (include_references include_citations : Bool)
    (api : String → List (String × String) → List (String × String) → HttpOutcome) :
    Except PyErr String := do
  let endpoint := detailEndpoint paper_id
  let params := [("fields", detailFieldsParam include_references include_citations)]
  let headers := buildHeaders apiKey
  match api endpoint params headers with
  | .reqError m =>
    pure ("Error: An unexpected error occurred. Unexpected error: " ++ m)
  | .otherExn m =>
    pure ("Error: An unexpected error occurred. Unexpected error: " ++ m)
  | .resp status text body =>
    if !is2xx status then
      pure ("Error: Failed to retrieve paper details. HTTP error occurred: "
        ++ toString status ++ " - " ++ text)
    else
      match body with
      | .error m =>
        pure ("Error: An unexpected error occurred. Unexpected error: " ++ m)
      | .ok data =>
        if !data.truthy then pure "No paper found with the provided ID or DOI."
        else renderPaperDetails include_references include_citations data

/-! ### Author search (source lines 623-689) -/

/-- The fields requested from the author search endpoint (source line 635). -/
def authorSearchFields : String :=
  "name,aliases,affiliations,homepage,paperCount,citationCount,hIndex,url"

/-- Python `isinstance(value, int)` (booleans are ints in Python). -/
def isIntInstance : JValue → Bool
  | .num _ => true
  | .bool _ => true
  | _ => false

/-- One author section (source lines 657-687). -/
def authorSection (i : Nat) (author : JValue) : Except PyErr String := do
  let nm ← author.getD "name" (.str "Unknown")
  let aid ← author.getD "authorId" (.str "")
  let head := "## " ++ toString i ++ ". " ++ pyStr nm ++ "\n\n"
  let al ← author.getD "aliases" .null
  let aliasLine ← if al.truthy then do
      let ali ← author.getItem "aliases"
      let xs ← pyIter ali
      let js ← joinStrs ", " xs
      pure ("**Also known as:** " ++ js ++ "\n")
    else pure ""
  let af ← author.getD "affiliations" .null
  let affLine ← if af.truthy then do
      let afi ← author.getItem "affiliations"
      let xs ← pyIter afi
      let js ← joinStrs ", " xs
      pure ("**Affiliations:** " ++ js ++ "\n")
    else pure ""
  let h ← author.getD "hIndex" (.str "N/A")
  let cc ← author.getD "citationCount" (.str "N/A")
  let pc ← author.getD "paperCount" (.str "N/A")
  let ccLine ← if isIntInstance cc then do
      let s ← formatComma cc
      pure ("- Total Citations: " ++ s ++ "\n")
    else pure ("- Total Citations: " ++ pyStr cc ++ "\n")
  let pcLine ← if isIntInstance pc then do
      let s ← formatComma pc
      pure ("- Publications: " ++ s ++ "\n")
    else pure ("- Publications: " ++ pyStr pc ++ "\n")
  let metrics := "**Metrics:**\n- H-index: " ++ pyStr h ++ "\n" ++ ccLine ++ pcLine
  let hp ← author.getD "homepage" .null
  let hpLine ← if hp.truthy then do
      let hv ← author.getItem "homepage"
      pure ("**Homepage:** [" ++ pyStr hv ++ "](" ++ pyStr hv ++ ")\n")
    else pure ""
  let u ← author.getD "url" .null
  let uLine ← if u.truthy then do
      let uv ← author.getItem "url"
      pure ("**Semantic Scholar Profile:** [View Profile](" ++ pyStr uv ++ ")\n")
    else pure (if aid.truthy then
        "**Semantic Scholar Profile:** [View Profile](https://www.semanticscholar.org/author/"
          ++ pyStr aid ++ ")\n"
      else "")
  pure (head ++ aliasLine ++ affLine ++ metrics ++ hpLine ++ uLine ++ "\n---\n\n")

/-- The author-search renderer (source lines 651-689), including the
no-results check of line 651 — which dereferences `data.get` and therefore
raises `AttributeError` when the 2xx body is not a JSON object. -/
def renderAuthorsResult (author_name : String) (data : JValue) :
    Except PyErr String := do
  let dd ← data.getD "data" .null
  if !dd.truthy then
    pure ("No authors found matching \x27" ++ author_name ++ "\x27.")
  else do
    let tot ← data.getD "total" (.num 0)
    let ts ← formatComma tot
    let di ← data.getItem "data"
    let n ← pyLen di
    let header := "# Author Search Results for \x27" ++ author_name ++ "\x27\n\n"
      ++ "Found " ++ ts ++ " authors. Showing top " ++ toString n ++ ":\n\n"
    let elems ← pyIter di
    let secs ← mapIdxE authorSection 1 elems
    pure (header ++ String.join secs)

/-- `search_authors` (source lines 623-689): one GET whose failures are all
swallowed by a single `except Exception` into an error string; the rendering
happens after the handler, so its exceptions propagate. -/
def search_authors (apiKey : Option String) (author_name : String)
    (limit : Int)
    (api : List (String × String) → List (String × String) → HttpOutcome) :
    Except PyErr String := do
  let params := [("query", author_name), ("limit", toString limit),
    ("fields", authorSearchFields)]
  let headers := buildHeaders apiKey
  match api params headers with
  | .reqError m => pure ("Error: Failed to search for authors. " ++ m)
  | .otherExn m => pure ("Error: Failed to search for authors. " ++ m)
  | .resp status text body =>
    if !is2xx status then
      pure ("Error: Failed to search for authors. " ++ httpStatusErrStr status text)
    else
      match body with
      | .error m => pure ("Error: Failed to search for authors. " ++ m)
      | .ok data => renderAuthorsResult author_name data

/-! ### Well-formedness of response bodies

These decidable predicates characterise (a sufficient family of) response
bodies on which the search renderer is total: objects whose present fields
carry the types the remote API schema gives them.  They are used to state the
partial-failure and no-crash theorems. -/

/-- A list value all of whose elements are strings. -/
def strListVal : JValue → Bool
  | .arr xs => xs.all fun x => match x with | .str _ => true | _ => false
  | _ => false

/-- An author record as the renderer consumes it: a dict whose `name`, when
present, is a string (so the `', '.join` of names cannot fail); the
`authorId` field may be anything, it is only interpolated. -/
def WFAuthorEntry : JValue → Bool
  | .obj fs =>
    match fs.lookup "name" with
    | none => true
    | some (.str _) => true
    | some _ => false
  | _ => false

/-- A nested citation/reference entry: a dict whose `authors`, when present,
is a list of well-formed author records. -/
def WFNestedEntry : JValue → Bool
  | .obj fs =>
    match fs.lookup "authors" with
    | none => true
    | some (.arr as) => as.all WFAuthorEntry
    | some _ => false
  | _ => false

/-- A list value all of whose elements satisfy `f`. -/
def listValAll (f : JValue → Bool) : JValue → Bool
  | .arr xs => xs.all f
  | _ => false

/-- Either falsy (a guard then skips the consuming block) or a list whose
elements all satisfy `f`. -/
def falsyOrListOf (f : JValue → Bool) (v : JValue) : Bool :=
  !v.truthy || listValAll f v

/-- A value acceptable in a paper's `citations`/`references` slot: anything
falsy (the guard then skips the block), or a list of well-formed nested
entries. -/
def WFEnrichVal (v : JValue) : Bool := falsyOrListOf WFNestedEntry v

/-- A value acceptable in a paper's `tldr` slot: falsy, or a dict. -/
def WFTldrVal (v : JValue) : Bool := !v.truthy || v.isObj

/-- An absent, integer or boolean field (the types `{:,}` can format). -/
def numLike : Option JValue → Bool
  | none => true
  | some (.num _) => true
  | some (.bool _) => true
  | some _ => false

/-- The field `k`, when present, satisfies `f` (absent fields are always
acceptable: every renderer supplies a default). -/
def optFieldIs (p : JValue) (k : String) (f : JValue → Bool) : Bool :=
  match p.look k with
  | none => true
  | some v => f v

/-- An authors value: a list of well-formed author records (the renderers
iterate it unconditionally via `paper.get('authors', [])`). -/
def authorsVal : JValue → Bool
  | .arr as => as.all WFAuthorEntry
  | _ => false

/-- A search-result paper record on which the listing renderer is total:
every field is optional, and each present field is typed as the API schema
types it. -/
def WFPaper (p : JValue) : Bool :=
  p.isObj
  && optFieldIs p "publicationTypes" (fun v => !v.truthy || strListVal v)
  && optFieldIs p "authors" authorsVal
  && optFieldIs p "journal" (fun v => !v.truthy || v.isObj)
  && numLike (p.look "citationCount")
  && numLike (p.look "influentialCitationCount")
  && numLike (p.look "referenceCount")
  && optFieldIs p "fieldsOfStudy" (fun v => !v.truthy || strListVal v)
  && optFieldIs p "externalIds" JValue.isObj
  && optFieldIs p "tldr" WFTldrVal
  && optFieldIs p "citations" WFEnrichVal
  && optFieldIs p "references" WFEnrichVal

/-- A well-formed paper-search response body: an object whose `total`, when
present, is numeric and whose `data`, when present, is falsy or a list of
well-formed papers. -/
def WFPapersBody (b : JValue) : Bool :=
  b.isObj
  && numLike (b.look "total")
  && optFieldIs b "data" (falsyOrListOf WFPaper)

/-- Outcomes of the secondary details GET that keep the enriched papers
well-formed: any failure (exception, non-200 status, undecodable or non-dict
body) is acceptable because the paper is then left unchanged; a decoded dict
body must carry well-typed `references`/`citations`/`tldr` slots (or omit
them, the defaults being well-typed). -/
def DetailAcceptable : HttpOutcome → Bool
  | .resp 200 _ (.ok det) =>
    match det with
    | .obj fs =>
      WFEnrichVal ((fs.lookup "references").getD (.arr []))
      && WFEnrichVal ((fs.lookup "citations").getD (.arr []))
      && WFTldrVal ((fs.lookup "tldr").getD (.obj []))
    | _ => true
  | _ => true

/-! ### Auxiliary definitions used by the theorem statements -/

/-- The string held by a string value (and `""` on the other constructors). -/
def unstr : JValue → String
  | .str s => s
  | _ => ""

/-- The value `author.get('name', '')` yields on an author record. -/
def nameVal (a : JValue) : JValue := (a.look "name").getD (.str "")

/-- The displayed name of an author in a nested citation/reference entry. -/
def nestedName (a : JValue) : String := unstr (nameVal a)

/-- The displayed text for one author in the search listing: a markdown link
when an `authorId` is present, the bare name otherwise. -/
def listingAuthorText (a : JValue) : String :=
  let aid := (a.look "authorId").getD (.str "")
  if aid.truthy then
    "[" ++ pyStr (nameVal a) ++ "](https://www.semanticscholar.org/author/"
      ++ pyStr aid ++ ")"
  else pyStr (nameVal a)

/-- Whether a computation produced a value (returned a string) rather than
raising. -/
def isOkE {α : Type} : Except PyErr α → Bool
  | .ok _ => true
  | .error _ => false

/-- The transport-level failure modes of one GET: a request/connection error,
some other exception from the client, an undecodable body, or a non-2xx
status. -/
def FailureOutcome : HttpOutcome → Bool
  | .reqError _ => true
  | .otherExn _ => true
  | .resp _ _ (.error _) => true
  | .resp st _ (.ok _) => !is2xx st

/-! ## Theorems

General lemmas about the embedding's building blocks, followed by one theorem
per claim (with witnesses and counterexamples). -/

theorem ok_bind {α β : Type} (a : α) (g : α → Except PyErr β) :
    (Except.ok a >>= g) = g a := rfl

theorem error_bind {α β : Type} (e : PyErr) (g : α → Except PyErr β) :
    ((Except.error e : Except PyErr α) >>= g) = Except.error e := rfl

theorem pure_eq_ok {α : Type} (a : α) : (pure a : Except PyErr α) = .ok a := rfl

theorem lookup_append {β : Type} (l1 l2 : List (String × β)) (k : String) :
    (l1 ++ l2).lookup k =
      match l1.lookup k with
      | some v => some v
      | none => l2.lookup k := by
  induction l1 with
  | nil => simp [List.lookup]
  | cons kv l ih =>
    obtain ⟨k0, v0⟩ := kv
    cases hk : (k == k0) <;> simp [List.lookup, hk, ih]

theorem lookup_setKey (fs : List (String × JValue)) (k k2 : String) (v : JValue) :
    (setKey fs k v).lookup k2 = if k2 == k then some v else fs.lookup k2 := by
  induction fs with
  | nil =>
    simp only [setKey, List.lookup]
    cases hk : (k2 == k) <;> simp [hk]
  | cons kv fs ih =>
    obtain ⟨k0, v0⟩ := kv
    simp only [setKey]
    by_cases h0 : k0 = k
    · subst h0
      have hkk : (k0 == k0) = true := by simp
      rw [if_pos hkk]
      cases hk : (k2 == k0) <;> simp [List.lookup, hk]
    · have hb : (k0 == k) = false := by simp [h0]
      rw [if_neg (by simp [hb])]
      cases hk : (k2 == k0)
      · simp [List.lookup, hk, ih]
      · have hne : k2 = k0 := by simpa using hk
        subst hne
        have hf : (k2 == k) = false := by simp [h0]
        simp [List.lookup, hk, ih, hf]

theorem look_setKey {p : JValue} (hp : p.isObj = true) (k k2 : String) (v : JValue) :
    (p.setKey k v).look k2 = if k2 == k then some v else p.look k2 := by
  cases p <;> simp_all [JValue.isObj, JValue.setKey, JValue.look, lookup_setKey]

theorem isObj_setKey {p : JValue} (hp : p.isObj = true) (k : String) (v : JValue) :
    (p.setKey k v).isObj = true := by
  cases p <;> simp_all [JValue.isObj, JValue.setKey]

theorem getD_of_isObj {p : JValue} (hp : p.isObj = true) (k : String) (d : JValue) :
    p.getD k d = .ok ((p.look k).getD d) := by
  cases p <;> simp_all [JValue.isObj, JValue.getD, JValue.look]

theorem getItem_of_look {p : JValue} {k : String} {v : JValue}
    (h : p.look k = some v) : p.getItem k = .ok v := by
  cases p <;> simp_all [JValue.look, JValue.getItem]

theorem truthy_getD_null {o : Option JValue} (h : (o.getD .null).truthy = true) :
    o = some (o.getD .null) := by
  cases o with
  | none => simp [Option.getD, JValue.truthy] at h
  | some x => rfl

theorem truthy_getD_arrNil {o : Option JValue} (h : (o.getD (.arr [])).truthy = true) :
    o = some (o.getD (.arr [])) := by
  cases o with
  | none => simp [Option.getD, JValue.truthy] at h
  | some x => rfl

theorem mapE_ok_of_all {α β : Type} (f : α → Except PyErr β) (l : List α)
    (h : ∀ a ∈ l, ∃ b, f a = .ok b) : ∃ bs, mapE f l = .ok bs := by
  induction l with
  | nil => exact ⟨[], rfl⟩
  | cons a as ih =>
    obtain ⟨b, hb⟩ := h a (by simp)
    obtain ⟨bs, hbs⟩ := ih (fun x hx => h x (by simp [hx]))
    exact ⟨b :: bs, by simp [mapE, hb, hbs, ok_bind, pure_eq_ok]⟩

theorem mapE_map {α β : Type} (f : α → Except PyErr β) (g : α → β) (l : List α)
    (h : ∀ a ∈ l, f a = .ok (g a)) : mapE f l = .ok (l.map g) := by
  induction l with
  | nil => rfl
  | cons a as ih =>
    have ha := h a (by simp)
    have hrest := ih (fun x hx => h x (by simp [hx]))
    simp [mapE, ha, hrest, ok_bind, pure_eq_ok]

theorem mapIdxE_ok_of_all {α β : Type} (f : Nat → α → Except PyErr β)
    (l : List α) (h : ∀ a ∈ l, ∀ i, ∃ b, f i a = .ok b) :
    ∀ i, ∃ bs, mapIdxE f i l = .ok bs := by
  induction l with
  | nil => exact fun i => ⟨[], rfl⟩
  | cons a as ih =>
    intro i
    obtain ⟨b, hb⟩ := h a (by simp) i
    obtain ⟨bs, hbs⟩ := ih (fun x hx j => h x (by simp [hx]) j) (i + 1)
    exact ⟨b :: bs, by simp [mapIdxE, hb, hbs, ok_bind, pure_eq_ok]⟩

theorem strItem_of_str {x : JValue} {s : String} (h : x = .str s) :
    strItem x = .ok (unstr x) := by
  subst h
  rfl

theorem joinStrs_eq_intercalate (sep : String) (xs : List JValue)
    (h : ∀ x ∈ xs, ∃ s, x = .str s) :
    joinStrs sep xs = .ok (String.intercalate sep (xs.map unstr)) := by
  have hm : mapE strItem xs = .ok (xs.map unstr) := by
    apply mapE_map
    intro a ha
    obtain ⟨s, hs⟩ := h a ha
    exact strItem_of_str hs
  simp [joinStrs, hm, ok_bind, pure_eq_ok]

theorem joinStrs_ok_of_strs (sep : String) (xs : List JValue)
    (h : ∀ x ∈ xs, ∃ s, x = .str s) : ∃ s, joinStrs sep xs = .ok s :=
  ⟨String.intercalate sep (xs.map unstr), joinStrs_eq_intercalate sep xs h⟩

theorem processAdvancedFilters_ok_of_safe (jl : String → Except Unit JValue)
    (af : Option String) (h : FilterSafe jl af = true) :
    ∃ fw, processAdvancedFilters jl af = .ok fw := by
  cases af with
  | none => exact ⟨([], []), rfl⟩
  | some s =>
    simp only [processAdvancedFilters]
    cases he : s.isEmpty
    · simp only [he, Bool.not_false, if_true]
      cases hj : jl s with
      | error u => exact ⟨_, rfl⟩
      | ok v =>
        cases v
        case obj items => exact ⟨_, rfl⟩
        all_goals simp [FilterSafe, he, hj] at h
    · exact ⟨([], []), by simp [he]⟩

theorem searchParams_eq (jl : String → Except Unit JValue) (kw : String)
    (lim : Int) (yf yt : Option Int) (sb : String) (af : Option String)
    (fw : List (String × JValue) × List String)
    (h : processAdvancedFilters jl af = .ok fw) :
    searchParams jl kw lim yf yt sb af
      = .ok (searchParamsList kw lim yf yt sb fw.1, fw.2) := by
  simp [searchParams, h, ok_bind, pure_eq_ok]

theorem searchParamsList_lookup_year (kw : String) (lim : Int)
    (yf yt : Option Int) (sb : String) (fl : List (String × JValue)) :
    (searchParamsList kw lim yf yt sb fl).lookup "year" = yearParamOpt yf yt := by
  have hq : ("year" == "query") = false := by decide
  have hl : ("year" == "limit") = false := by decide
  have hf : ("year" == "fields") = false := by decide
  have hy : ("year" == "year") = true := by decide
  have hs : ("year" == "sort") = false := by decide
  have hfi : ("year" == "filter") = false := by decide
  simp only [searchParamsList, lookup_append]
  cases yearParamOpt yf yt <;> cases sortParamOpt sb <;>
    by_cases hfl : fl.isEmpty <;>
      simp [List.lookup, hq, hl, hf, hy, hs, hfi, hfl]

theorem searchParamsList_lookup_sort (kw : String) (lim : Int)
    (yf yt : Option Int) (sb : String) (fl : List (String × JValue)) :
    (searchParamsList kw lim yf yt sb fl).lookup "sort" = sortParamOpt sb := by
  have hq : ("sort" == "query") = false := by decide
  have hl : ("sort" == "limit") = false := by decide
  have hf : ("sort" == "fields") = false := by decide
  have hy : ("sort" == "year") = false := by decide
  have hs : ("sort" == "sort") = true := by decide
  have hfi : ("sort" == "filter") = false := by decide
  simp only [searchParamsList, lookup_append]
  cases yearParamOpt yf yt <;> cases sortParamOpt sb <;>
    by_cases hfl : fl.isEmpty <;>
      simp [List.lookup, hq, hl, hf, hy, hs, hfi, hfl]

theorem searchParamsList_lookup_filter (kw : String) (lim : Int)
    (yf yt : Option Int) (sb : String) (fl : List (String × JValue)) :
    (searchParamsList kw lim yf yt sb fl).lookup "filter"
      = if fl.isEmpty then none else some (jsonDumps (.obj fl)) := by
  have hq : ("filter" == "query") = false := by decide
  have hl : ("filter" == "limit") = false := by decide
  have hf : ("filter" == "fields") = false := by decide
  have hy : ("filter" == "year") = false := by decide
  have hs : ("filter" == "sort") = false := by decide
  have hfi : ("filter" == "filter") = true := by decide
  simp only [searchParamsList, lookup_append]
  cases yearParamOpt yf yt <;> cases sortParamOpt sb <;>
    by_cases hfl : fl.isEmpty <;>
      simp [List.lookup, hq, hl, hf, hy, hs, hfi, hfl]

/-! ## Claim theorems -/

/-- C7 (confirmed): in `search_papers_via_semanticscholar`, `sort_by =
"relevance"` emits no `sort` parameter, `"citationCount"` emits
`citationCount:desc`, `"year"` emits `year:desc`, and every other value
silently emits no `sort` parameter; the emitted parameter list carries exactly
this optional entry. -/
theorem c7_sort_mapping :
    sortParamOpt "relevance" = none
    ∧ sortParamOpt "citationCount" = some "citationCount:desc"
    ∧ sortParamOpt "year" = some "year:desc"
    ∧ (∀ s : String, s ≠ "citationCount" → s ≠ "year" → sortParamOpt s = none)
    ∧ (∀ (kw : String) (lim : Int) (yf yt : Option Int) (sb : String)
        (fl : List (String × JValue)),
        (searchParamsList kw lim yf yt sb fl).lookup "sort" = sortParamOpt sb) := by
  refine ⟨rfl, rfl, rfl, ?_, searchParamsList_lookup_sort⟩
  intro s h1 h2
  have e1 : (s == "citationCount") = false := by simpa using h1
  have e2 : (s == "year") = false := by simpa using h2
  simp only [sortParamOpt, e1, e2, Bool.false_eq_true, if_false]
  split <;> rfl

/-- Witness for C7 at concrete inputs: an unrecognised sort key emits
nothing, `citationCount` emits its descending sort. -/
theorem c7_sort_mapping_witness :
    sortParamOpt "foo" = none
    ∧ sortParamOpt "citationCount" = some "citationCount:desc" :=
  ⟨c7_sort_mapping.2.2.2.1 "foo" (by decide) (by decide), c7_sort_mapping.2.1⟩

/-- C2 counterexample: with `year_from = 0` and `year_to = 2020` — both set —
the emitted `year` parameter is `"-2020"`, not `"0-2020"` as the claim's
both-set case requires: Python's truthiness test `if year_from and year_to:`
treats the zero year as unset. -/
theorem c2_year_counterexample :
    searchParams (fun _ => .error ()) "q" 10 (some 0) (some 2020) "relevance" none
      = .ok (searchParamsList "q" 10 (some 0) (some 2020) "relevance" [], [])
    ∧ (searchParamsList "q" 10 (some 0) (some 2020) "relevance" []).lookup "year"
      = some "-2020"
    ∧ ("-2020" : String) ≠ "0-2020" :=
  ⟨rfl, rfl, by decide⟩

/-- C2 (corrected): treating a zero (or absent) year bound as unset — which
is what the code's truthiness tests do — the emitted `year` parameter is
the value of `year_from` followed by a dash when only `year_from` is
effectively set, a dash followed by the value of `year_to` when only
`year_to` is, the two values joined by a dash when both are, and absent
when neither is; and the assembled parameter list carries exactly this
optional entry. -/
theorem c2_year_amended :
    (∀ n : Int, n ≠ 0 →
      yearParamOpt (some n) none = some (toString n ++ "-")
      ∧ yearParamOpt (some n) (some 0) = some (toString n ++ "-")
      ∧ yearParamOpt none (some n) = some ("-" ++ toString n)
      ∧ yearParamOpt (some 0) (some n) = some ("-" ++ toString n))
    ∧ (∀ n m : Int, n ≠ 0 → m ≠ 0 →
      yearParamOpt (some n) (some m) = some (toString n ++ "-" ++ toString m))
    ∧ yearParamOpt none none = none
    ∧ yearParamOpt (some 0) none = none
    ∧ yearParamOpt none (some 0) = none
    ∧ yearParamOpt (some 0) (some 0) = none
    ∧ (∀ (kw : String) (lim : Int) (yf yt : Option Int) (sb : String)
        (fl : List (String × JValue)),
        (searchParamsList kw lim yf yt sb fl).lookup "year" = yearParamOpt yf yt) := by
  refine ⟨?_, ?_, rfl, rfl, rfl, rfl, searchParamsList_lookup_year⟩
  · intro n hn
    have ht : (n != 0) = true := by simpa using hn
    refine ⟨?_, ?_, ?_, ?_⟩ <;>
      simp [yearParamOpt, optIntTruthy, optIntStr, ht]
  · intro n m hn hm
    have htn : (n != 0) = true := by simpa using hn
    have htm : (m != 0) = true := by simpa using hm
    simp [yearParamOpt, optIntTruthy, optIntStr, htn, htm]

/-- Witness for the amended C2 at concrete years. -/
theorem c2_year_amended_witness :
    yearParamOpt (some 1999) (some 2024)
      = some (toString (1999 : Int) ++ "-" ++ toString (2024 : Int))
    ∧ yearParamOpt (some 1999) none = some (toString (1999 : Int) ++ "-") :=
  ⟨c2_year_amended.2.1 1999 2024 (by decide) (by decide),
   (c2_year_amended.1 1999 (by decide)).1⟩

/-- C8 (confirmed): a `paper_id` starting with `10.` or containing `/` routes
to the DOI-form endpoint `.../paper/DOI:{paper_id}`, any other `paper_id` to
the native-id endpoint `.../paper/{paper_id}`; and `get_paper_details`
interrogates the remote API only at that endpoint. -/
theorem c8_doi_routing :
    (∀ pid : String, (pyStartsWith pid "10." || pyInStr "/" pid) = true →
      detailEndpoint pid = PAPER_DETAILS_URL ++ "DOI:" ++ pid)
    ∧ (∀ pid : String, (pyStartsWith pid "10." || pyInStr "/" pid) = false →
      detailEndpoint pid = PAPER_DETAILS_URL ++ pid)
    ∧ (∀ (apiKey : Option String) (pid : String) (ir ic : Bool)
        (f g : String → List (String × String) → List (String × String) → HttpOutcome),
        (∀ params headers, f (detailEndpoint pid) params headers
            = g (detailEndpoint pid) params headers) →
        get_paper_details apiKey pid ir ic f = get_paper_details apiKey pid ir ic g) := by
  refine ⟨?_, ?_, ?_⟩
  · intro pid h
    simp [detailEndpoint, h]
  · intro pid h
    simp [detailEndpoint, h]
  · intro apiKey pid ir ic f g h
    simp only [get_paper_details]
    rw [h]

/-- Witness for C8: the DOI example from the spec routes to the DOI form, a
bare identifier to the native form. -/
theorem c8_doi_routing_witness :
    detailEndpoint "10.1000/xyz123" = PAPER_DETAILS_URL ++ "DOI:" ++ "10.1000/xyz123"
    ∧ detailEndpoint "abc123" = PAPER_DETAILS_URL ++ "abc123" :=
  ⟨c8_doi_routing.1 "10.1000/xyz123" (by decide),
   c8_doi_routing.2.1 "abc123" (by decide)⟩

/-- C10 (confirmed): a non-empty `advanced_filters` string that parses to a
non-object JSON value makes `search_papers_via_semanticscholar` raise an
uncaught `AttributeError` from `filter_dict.items()` — before any request is
issued, so for every remote behaviour — instead of returning a string; only
JSON decode errors are caught by the filter-parsing branch. -/
theorem c10_nondict_filters (jl : String → Except Unit JValue) (s : String)
    (v : JValue) (apiKey : Option String) (kw : String) (lim : Int)
    (yf yt : Option Int) (sb : String)
    (primary : List (String × String) → List (String × String) → HttpOutcome)
    (detail : String → List (String × String) → HttpOutcome)
    (hs : s ≠ "") (hv : jl s = .ok v) (hobj : v.isObj = false) :
    search_papers_via_semanticscholar jl apiKey kw lim yf yt sb (some s)
      primary detail
      = .error (.attributeError
          ("\x27" ++ v.typeName ++ "\x27 object has no attribute \x27items\x27")) := by
  have he : s.isEmpty = false := by
    rcases hb : s.isEmpty with _ | _
    · rfl
    · exact absurd ((String.isEmpty_iff s).mp (by simp [hb])) hs
  have hp : processAdvancedFilters jl (some s)
      = .error (.attributeError
          ("\x27" ++ v.typeName ++ "\x27 object has no attribute \x27items\x27")) := by
    simp only [processAdvancedFilters, he, Bool.not_false, if_true, hv]
    cases v
    case obj fs => simp [JValue.isObj] at hobj
    all_goals rfl
  simp [search_papers_via_semanticscholar, searchParams, hp, error_bind]

/-- Witness for C10: the claim's own example `"[1, 2]"`. -/
theorem c10_nondict_filters_witness :
    search_papers_via_semanticscholar (fun _ => .ok (.arr [.num 1, .num 2])) none
      "q" 10 none none "relevance" (some "[1, 2]")
      (fun _ _ => .resp 200 "" (.ok (.obj []))) (fun _ _ => .reqError "x")
      = .error (.attributeError "\x27list\x27 object has no attribute \x27items\x27") :=
  c10_nondict_filters _ "[1, 2]" (.arr [.num 1, .num 2]) none "q" 10 none none
    "relevance" _ _ (by decide) rfl rfl

/-- C3 counterexample: the empty string is not valid JSON (`json.loads("")`
raises a decode error), yet the operation logs no warning for it — the
truthiness test `if advanced_filters:` skips the parse entirely, so the
claim's "logs a warning" fails for this input (the filter is still dropped
and processing continues). -/
theorem c3_empty_filters_counterexample :
    processAdvancedFilters (fun _ => .error ()) (some "") = .ok ([], []) := rfl

/-- C3 (corrected): for every NON-EMPTY `advanced_filters` string that is not
valid JSON, the operation logs the invalid-JSON warning, emits no `filter`
parameter, and behaves exactly as if no advanced filters had been supplied
(so it returns whatever the no-filter search returns, never crashing on the
malformed filter itself); the empty string is skipped silently instead of
being warned about. -/
theorem c3_invalid_filters_amended (jl : String → Except Unit JValue)
    (s : String) (apiKey : Option String) (kw : String) (lim : Int)
    (yf yt : Option Int) (sb : String)
    (primary : List (String × String) → List (String × String) → HttpOutcome)
    (detail : String → List (String × String) → HttpOutcome)
    (hs : s ≠ "") (hp : jl s = .error ()) :
    processAdvancedFilters jl (some s)
      = .ok ([], ["Invalid JSON in advanced_filters: " ++ s])
    ∧ (searchParamsList kw lim yf yt sb []).lookup "filter" = none
    ∧ search_papers_via_semanticscholar jl apiKey kw lim yf yt sb (some s)
        primary detail
      = search_papers_via_semanticscholar jl apiKey kw lim yf yt sb none
        primary detail := by
  have he : s.isEmpty = false := by
    rcases hb : s.isEmpty with _ | _
    · rfl
    · exact absurd ((String.isEmpty_iff s).mp (by simp [hb])) hs
  have h1 : processAdvancedFilters jl (some s)
      = .ok ([], ["Invalid JSON in advanced_filters: " ++ s]) := by
    simp [processAdvancedFilters, he, hp]
  refine ⟨h1, ?_, ?_⟩
  · rw [searchParamsList_lookup_filter]
    rfl
  · have h2 : processAdvancedFilters jl none = .ok ([], []) := rfl
    simp only [search_papers_via_semanticscholar, searchParams, h1, h2,
      ok_bind, pure_eq_ok]

/-- Witness for the amended C3 at a concrete malformed string. -/
theorem c3_invalid_filters_amended_witness :
    processAdvancedFilters (fun _ => .error ()) (some "not json")
      = .ok ([], ["Invalid JSON in advanced_filters: " ++ "not json"])
    ∧ (searchParamsList "q" 10 none none "relevance" []).lookup "filter" = none
    ∧ search_papers_via_semanticscholar (fun _ => .error ()) none "q" 10 none
        none "relevance" (some "not json")
        (fun _ _ => .resp 200 "" (.ok (.obj []))) (fun _ _ => .reqError "x")
      = search_papers_via_semanticscholar (fun _ => .error ()) none "q" 10 none
        none "relevance" none
        (fun _ _ => .resp 200 "" (.ok (.obj []))) (fun _ _ => .reqError "x") :=
  c3_invalid_filters_amended (fun _ => .error ()) "not json" none "q" 10 none
    none "relevance" _ _ (by decide) rfl

/-- C4 (confirmed): when the remote 2xx response body is an object whose
`data` entry is absent or the empty list, the paper search returns its literal
no-results message and the author search returns its literal no-results
message naming the queried author; neither raises. -/
theorem c4_no_results (jl : String → Except Unit JValue) (apiKey : Option String)
    (kw : String) (lim : Int) (yf yt : Option Int) (sb : String)
    (af : Option String) (st : Nat) (text : String)
    (bfs : List (String × JValue))
    (detail : String → List (String × String) → HttpOutcome)
    (aname : String) (alimit : Int)
    (hf : FilterSafe jl af = true) (hst : is2xx st = true)
    (hdata : bfs.lookup "data" = none ∨ bfs.lookup "data" = some (.arr [])) :
    search_papers_via_semanticscholar jl apiKey kw lim yf yt sb af
      (fun _ _ => .resp st text (.ok (.obj bfs))) detail
      = .ok "No papers found matching your search criteria."
    ∧ search_authors apiKey aname alimit
        (fun _ _ => .resp st text (.ok (.obj bfs)))
      = .ok ("No authors found matching \x27" ++ aname ++ "\x27.") := by
  obtain ⟨fw, hfw⟩ := processAdvancedFilters_ok_of_safe jl af hf
  have htr : ((bfs.lookup "data").getD JValue.null).truthy = false := by
    rcases hdata with hd | hd <;> simp [hd, JValue.truthy]
  have hen : enrichData detail (buildHeaders apiKey) (.obj bfs)
      = .ok (.obj bfs, []) := by
    simp only [enrichData, JValue.getD, ok_bind]
    simp [htr, pure_eq_ok]
  have hrd : renderPapersResult kw sb (.obj bfs)
      = .ok "No papers found matching your search criteria." := by
    simp only [renderPapersResult, JValue.getD, ok_bind]
    simp [htr, pure_eq_ok]
  constructor
  · simp only [search_papers_via_semanticscholar, searchParams, hfw, ok_bind,
      pure_eq_ok]
    simp [hst, hen, hrd]
  · simp only [search_authors]
    simp only [renderAuthorsResult, JValue.getD, ok_bind]
    simp [hst, htr, pure_eq_ok]

/-- Witness for C4: a concrete empty-result response for both operations. -/
theorem c4_no_results_witness :
    search_papers_via_semanticscholar (fun _ => .error ()) none "quantum" 10
      none none "relevance" none
      (fun _ _ => .resp 200 "" (.ok (.obj [("total", .num 0)])))
      (fun _ _ => .reqError "x")
      = .ok "No papers found matching your search criteria."
    ∧ search_authors none "Alice" 10
        (fun _ _ => .resp 200 "" (.ok (.obj [("total", .num 0)])))
      = .ok ("No authors found matching \x27" ++ "Alice" ++ "\x27.") :=
  c4_no_results (fun _ => .error ()) none "quantum" 10 none none "relevance"
    none 200 "" [("total", .num 0)] (fun _ _ => .reqError "x") "Alice" 10
    rfl rfl (Or.inl rfl)

theorem WFAuthorEntry_isObj {a : JValue} (h : WFAuthorEntry a = true) :
    a.isObj = true := by
  cases a <;> simp_all [WFAuthorEntry, JValue.isObj]

theorem nameVal_str {a : JValue} (h : WFAuthorEntry a = true) :
    ∃ s, nameVal a = .str s := by
  cases a
  case obj fs =>
    simp only [nameVal, JValue.look]
    rcases hl : fs.lookup "name" with _ | v
    · exact ⟨"", rfl⟩
    · simp only [WFAuthorEntry, hl] at h
      cases v
      case str s => exact ⟨s, rfl⟩
      all_goals simp at h
  all_goals simp [WFAuthorEntry] at h

theorem searchAuthorItem_eq {a : JValue} (h : a.isObj = true) :
    searchAuthorItem a = .ok (listingAuthorText a) := by
  cases a
  case obj fs =>
    simp only [searchAuthorItem, JValue.getD, ok_bind, listingAuthorText,
      nameVal, JValue.look]
    cases h2 : (((fs.lookup "authorId").getD (.str "")).truthy) <;> simp [h2, pure_eq_ok]
  all_goals simp [JValue.isObj] at h

theorem entryNameItem_eq {a : JValue} (h : a.isObj = true) :
    entryNameItem a = .ok (nameVal a) := by
  cases a
  case obj fs => simp [entryNameItem, JValue.getD, nameVal, JValue.look]
  all_goals simp [JValue.isObj] at h

theorem mapE_entryNameItem {elems : List JValue}
    (h : ∀ a ∈ elems, WFAuthorEntry a = true) :
    mapE entryNameItem elems = .ok (elems.map nameVal) :=
  mapE_map _ _ _ (fun a ha => entryNameItem_eq (WFAuthorEntry_isObj (h a ha)))

theorem nameVals_strs {elems : List JValue}
    (h : ∀ a ∈ elems, WFAuthorEntry a = true) :
    ∀ x ∈ elems.map nameVal, ∃ s, x = .str s := by
  intro x hx
  obtain ⟨a, ha, rfl⟩ := List.mem_map.mp hx
  exact nameVal_str (h a ha)

/-- C5 counterexample: a search result with six authors (one more than the
display cap) is rendered with the suffix `and 1 others`, not `et al.` — the
claim's `et al.` requirement fails at the search-result listing site. -/
theorem c5_counterexample :
    searchResultAuthorsBlock (.obj [("authors", .arr
      [.obj [("name", .str "A")], .obj [("name", .str "B")],
       .obj [("name", .str "C")], .obj [("name", .str "D")],
       .obj [("name", .str "E")], .obj [("name", .str "F")]])])
      = .ok "👥 **Authors:** A, B, C, D, E and 1 others\n\n"
    ∧ pyInStr "et al." "👥 **Authors:** A, B, C, D, E and 1 others\n\n" = false :=
  ⟨rfl, rfl⟩

/-- C5 (corrected): over-cap author lists display exactly the first N entries
in their original order, but the suffix differs by site — the search-result
listing (cap 5) appends `and {len-5} others`, while nested citation/reference
entries (cap 3) and detail-page citation entries (cap 5) append ` et al.`. -/
theorem c5_authors_amended (elems : List JValue)
    (h : ∀ a ∈ elems, WFAuthorEntry a = true) :
    (5 < elems.length →
      searchResultAuthorsBlock (.obj [("authors", .arr elems)])
        = .ok ("👥 **Authors:** "
            ++ String.intercalate ", " ((elems.take 5).map listingAuthorText)
            ++ (" and " ++ toString ((elems.length : Int) - 5) ++ " others")
            ++ "\n\n"))
    ∧ (3 < elems.length →
      nestedAuthorsStr (.obj [("authors", .arr elems)])
        = .ok (String.intercalate ", " ((elems.take 3).map nestedName)
            ++ " et al."))
    ∧ (5 < elems.length →
      detailCitationAuthorsBlock (.obj [("authors", .arr elems)])
        = .ok ("**Authors:** "
            ++ String.intercalate ", " ((elems.take 5).map nestedName)
            ++ " et al." ++ "\n")) := by
  have hmapl : ∀ n : Nat, mapE searchAuthorItem (elems.take n)
      = .ok ((elems.take n).map listingAuthorText) := fun n =>
    mapE_map _ _ _ (fun a ha =>
      searchAuthorItem_eq (WFAuthorEntry_isObj (h a (List.mem_of_mem_take ha))))
  have hmapn : mapE entryNameItem elems = .ok (elems.map nameVal) :=
    mapE_entryNameItem h
  have hjoin : ∀ n : Nat, joinStrs ", " ((elems.map nameVal).take n)
      = .ok (String.intercalate ", " ((elems.take n).map nestedName)) := by
    intro n
    rw [joinStrs_eq_intercalate _ _ (fun x hx =>
      nameVals_strs h x (List.mem_of_mem_take hx))]
    congr 1
    rw [← List.map_take, List.map_map]
    rfl
  refine ⟨?_, ?_, ?_⟩
  · intro h5
    have hne : elems.isEmpty = false := by
      cases elems
      · simp at h5
      · rfl
    have htru : (JValue.arr elems).truthy = true := by
      simp [JValue.truthy, hne]
    have hgt : ((elems.length : Int) > 5) := by exact_mod_cast h5
    simp only [searchResultAuthorsBlock, JValue.getD, JValue.look, ok_bind]
    simp only [List.lookup, show ("authors" == "authors") = true from rfl,
      Option.getD, htru, if_true]
    simp only [JValue.getItem, List.lookup,
      show ("authors" == "authors") = true from rfl, ok_bind, pySliceTo,
      pyIter, hmapl 5, pyLen, pure_eq_ok]
    rw [if_pos hgt]
  · intro h3
    have hne : elems.isEmpty = false := by
      cases elems
      · simp at h3
      · rfl
    have htru : (JValue.arr elems).truthy = true := by
      simp [JValue.truthy, hne]
    have hgt : ((elems.length : Int) > 3) := by exact_mod_cast h3
    simp only [nestedAuthorsStr, JValue.getD, JValue.look, ok_bind]
    simp only [List.lookup, show ("authors" == "authors") = true from rfl,
      Option.getD, pyIter, ok_bind, hmapn, hjoin 3, htru, if_true]
    simp only [JValue.getItem, List.lookup,
      show ("authors" == "authors") = true from rfl, ok_bind, pyLen,
      pure_eq_ok]
    rw [if_pos hgt]
  · intro h5
    have hne : elems.isEmpty = false := by
      cases elems
      · simp at h5
      · rfl
    have htru : (JValue.arr elems).truthy = true := by
      simp [JValue.truthy, hne]
    have hgt : ((elems.length : Int) > 5) := by exact_mod_cast h5
    simp only [detailCitationAuthorsBlock, JValue.getD, JValue.look, ok_bind]
    simp only [List.lookup, show ("authors" == "authors") = true from rfl,
      Option.getD, htru, if_true, pyIter, ok_bind, hmapn, hjoin 5]
    simp only [JValue.getItem, List.lookup,
      show ("authors" == "authors") = true from rfl, ok_bind, pyLen,
      pure_eq_ok]
    rw [if_pos hgt]
    simp [String.append_assoc]

/-- Witness for the amended C5: four concrete authors in a nested entry show
the first three names and ` et al.`. -/
theorem c5_authors_amended_witness :
    nestedAuthorsStr (.obj [("authors", .arr
      [.obj [("name", .str "A")], .obj [("name", .str "B")],
       .obj [("name", .str "C")], .obj [("name", .str "D")]])])
      = .ok (String.intercalate ", "
          (([JValue.obj [("name", .str "A")], .obj [("name", .str "B")],
             .obj [("name", .str "C")], .obj [("name", .str "D")]].take 3).map
            nestedName) ++ " et al.") :=
  (c5_authors_amended _ (by decide)).2.1 (by decide)

/-- C1 counterexample: a 2xx response whose JSON body is the number `42`
makes `search_authors` raise an uncaught `AttributeError` at
`data.get('data')` (source line 651, outside the `try`), so "any JSON
response body" yields a returned string is false. -/
theorem c1_counterexample :
    search_authors none "Alice" 10 (fun _ _ => .resp 200 "" (.ok (.num 42)))
      = .error (.attributeError
          "\x27int\x27 object has no attribute \x27get\x27") := rfl

/-- C1 (corrected): every transport-level failure — connection/request error,
any other client exception, a non-2xx status, or an undecodable 2xx body —
resolves to a returned string for all three operations (given, for the paper
search, advanced filters that do not themselves raise); a decodable 2xx JSON
body, however, may cause an uncaught exception when it is not of the expected
object shape. -/
theorem c1_failure_modes (jl : String → Except Unit JValue)
    (apiKey : Option String) (kw : String) (lim : Int) (yf yt : Option Int)
    (sb : String) (af : Option String) (o : HttpOutcome)
    (detail : String → List (String × String) → HttpOutcome)
    (pid : String) (ir ic : Bool) (aname : String) (alimit : Int)
    (hf : FilterSafe jl af = true) (ho : FailureOutcome o = true) :
    isOkE (search_papers_via_semanticscholar jl apiKey kw lim yf yt sb af
      (fun _ _ => o) detail) = true
    ∧ isOkE (get_paper_details apiKey pid ir ic (fun _ _ _ => o)) = true
    ∧ isOkE (search_authors apiKey aname alimit (fun _ _ => o)) = true := by
  obtain ⟨fw, hfw⟩ := processAdvancedFilters_ok_of_safe jl af hf
  refine ⟨?_, ?_, ?_⟩
  · cases o with
    | reqError m =>
      simp [search_papers_via_semanticscholar, searchParams, hfw, ok_bind,
        pure_eq_ok, isOkE]
    | otherExn m =>
      simp [search_papers_via_semanticscholar, searchParams, hfw, ok_bind,
        pure_eq_ok, isOkE]
    | resp st text body =>
      cases body with
      | error m =>
        cases h2 : is2xx st <;>
          simp [search_papers_via_semanticscholar, searchParams, hfw, ok_bind,
            pure_eq_ok, isOkE, h2]
      | ok b =>
        have h2 : is2xx st = false := by
          simpa [FailureOutcome] using ho
        simp [search_papers_via_semanticscholar, searchParams, hfw, ok_bind,
          pure_eq_ok, isOkE, h2]
  · cases o with
    | reqError m => rfl
    | otherExn m => rfl
    | resp st text body =>
      cases body with
      | error m =>
        cases h2 : is2xx st <;> simp [get_paper_details, isOkE, h2, pure_eq_ok]
      | ok b =>
        have h2 : is2xx st = false := by
          simpa [FailureOutcome] using ho
        simp [get_paper_details, isOkE, h2, pure_eq_ok]
  · cases o with
    | reqError m => rfl
    | otherExn m => rfl
    | resp st text body =>
      cases body with
      | error m =>
        cases h2 : is2xx st <;> simp [search_authors, isOkE, h2, pure_eq_ok]
      | ok b =>
        have h2 : is2xx st = false := by
          simpa [FailureOutcome] using ho
        simp [search_authors, isOkE, h2, pure_eq_ok]

/-- Witness for the amended C1: a concrete connection failure yields strings
from all three operations. -/
theorem c1_failure_modes_witness :
    isOkE (search_papers_via_semanticscholar (fun _ => .error ()) none "q" 10
      none none "relevance" none (fun _ _ => .reqError "boom")
      (fun _ _ => .reqError "boom")) = true
    ∧ isOkE (get_paper_details none "abc" true true
        (fun _ _ _ => .reqError "boom")) = true
    ∧ isOkE (search_authors none "Alice" 10 (fun _ _ => .reqError "boom")) = true :=
  c1_failure_modes (fun _ => .error ()) none "q" 10 none none "relevance" none
    (.reqError "boom") (fun _ _ => .reqError "boom") "abc" true true "Alice" 10
    rfl rfl

/-- C9 (code-bug evidence): the paper-detail renderer raises `TypeError` on a
well-typed record that merely lacks optional fields — no venue and a journal
object without a `name` (as real records have).  With `journal` truthy,
`journal_name = journal.get('name')` is `None`, and the BibTeX entry-type
classification evaluates `"Conference" in None` (source line 579) instead of
degrading to a placeholder. -/
theorem c9_missing_journal_name_raises :
    renderPaperDetails true true
      (.obj [("title", .str "X"), ("journal", .obj [("volume", .str "3")])])
      = .error (.typeError
          "argument of type \x27NoneType\x27 is not iterable") := rfl

/-- C6 counterexample: a non-200 secondary response is skipped with NO log
entry — the claim's "caught and logged" fails for the non-200 case (the
enrichment fields are indeed left absent and the loop continues). -/
theorem c6_silent_skip_counterexample :
    enrichPaper (fun _ _ => .resp 404 "" (.ok .null)) []
      (.obj [("paperId", .str "p1"), ("title", .str "T")])
      = .ok (.obj [("paperId", .str "p1"), ("title", .str "T")], []) := rfl

/-! ### Well-formedness eliminators and renderer-totality lemmas -/

theorem isObj_elim {p : JValue} (h : p.isObj = true) : ∃ fs, p = .obj fs := by
  cases p
  case obj fs => exact ⟨fs, rfl⟩
  all_goals simp [JValue.isObj] at h

theorem WFPaper_parts {p : JValue} (h : WFPaper p = true) :
    p.isObj = true
    ∧ optFieldIs p "publicationTypes" (fun v => !v.truthy || strListVal v) = true
    ∧ optFieldIs p "authors" authorsVal = true
    ∧ optFieldIs p "journal" (fun v => !v.truthy || v.isObj) = true
    ∧ numLike (p.look "citationCount") = true
    ∧ numLike (p.look "influentialCitationCount") = true
    ∧ numLike (p.look "referenceCount") = true
    ∧ optFieldIs p "fieldsOfStudy" (fun v => !v.truthy || strListVal v) = true
    ∧ optFieldIs p "externalIds" JValue.isObj = true
    ∧ optFieldIs p "tldr" WFTldrVal = true
    ∧ optFieldIs p "citations" WFEnrichVal = true
    ∧ optFieldIs p "references" WFEnrichVal = true := by
  simp only [WFPaper, Bool.and_eq_true] at h
  obtain ⟨⟨⟨⟨⟨⟨⟨⟨⟨⟨⟨h1, h2⟩, h3⟩, h4⟩, h5⟩, h6⟩, h7⟩, h8⟩, h9⟩, h10⟩, h11⟩, h12⟩ := h
  exact ⟨h1, h2, h3, h4, h5, h6, h7, h8, h9, h10, h11, h12⟩

theorem optFieldIs_getD {fs : List (String × JValue)} {k : String}
    {f : JValue → Bool} (h : optFieldIs (.obj fs) k f = true)
    {d : JValue} (hd : f d = true) :
    f ((fs.lookup k).getD d) = true := by
  rcases hl : fs.lookup k with _ | v
  · simpa using hd
  · simp only [optFieldIs, JValue.look, hl] at h
    simpa using h

theorem numLike_getD {fs : List (String × JValue)} {k : String}
    (h : numLike (JValue.look (.obj fs) k) = true) {d : JValue}
    (hd : numLike (some d) = true) :
    numLike (some ((fs.lookup k).getD d)) = true := by
  rcases hl : fs.lookup k with _ | v
  · simpa using hd
  · simp only [JValue.look, hl] at h
    simpa using h

theorem formatComma_ok {v : JValue} (h : numLike (some v) = true) :
    ∃ s, formatComma v = .ok s := by
  cases v
  case num n => exact ⟨_, rfl⟩
  case bool b => exact ⟨_, rfl⟩
  all_goals simp [numLike] at h

theorem truthy_lookup_getD {fs : List (String × JValue)} {k : String}
    {d : JValue} (hd : d.truthy = false)
    (h : ((fs.lookup k).getD d).truthy = true) :
    fs.lookup k = some ((fs.lookup k).getD d) := by
  rcases hl : fs.lookup k with _ | v
  · rw [hl] at h
    simp only [Option.getD] at h
    simp [h] at hd
  · rfl

theorem strListVal_elems {v : JValue} (h : strListVal v = true) :
    ∃ xs, v = .arr xs ∧ ∀ x ∈ xs, ∃ s, x = .str s := by
  cases v
  case arr xs =>
    refine ⟨xs, rfl, ?_⟩
    intro x hx
    simp only [strListVal] at h
    have hone := (List.all_eq_true.mp h) x hx
    cases x
    case str s => exact ⟨s, rfl⟩
    all_goals simp at hone
  all_goals simp [strListVal] at h

theorem authorsVal_elems {v : JValue} (h : authorsVal v = true) :
    ∃ as, v = .arr as ∧ ∀ a ∈ as, WFAuthorEntry a = true := by
  cases v
  case arr as =>
    exact ⟨as, rfl, fun a ha => (List.all_eq_true.mp (by simpa [authorsVal] using h)) a ha⟩
  all_goals simp [authorsVal] at h

theorem falsyOrListOf_truthy {f : JValue → Bool} {v : JValue}
    (hw : falsyOrListOf f v = true) (ht : v.truthy = true) :
    ∃ xs, v = .arr xs ∧ ∀ x ∈ xs, f x = true := by
  simp only [falsyOrListOf, ht, Bool.not_true, Bool.false_or] at hw
  cases v
  case arr xs =>
    exact ⟨xs, rfl, List.all_eq_true.mp (by simpa [listValAll] using hw)⟩
  all_goals simp [listValAll] at hw

theorem WFEnrichVal_truthy {v : JValue} (hw : WFEnrichVal v = true)
    (ht : v.truthy = true) :
    ∃ xs, v = .arr xs ∧ ∀ x ∈ xs, WFNestedEntry x = true :=
  falsyOrListOf_truthy hw ht

theorem WFNestedEntry_isObj {x : JValue} (h : WFNestedEntry x = true) :
    x.isObj = true := by
  cases x <;> simp_all [WFNestedEntry, JValue.isObj]

theorem WFTldrVal_truthy {v : JValue} (hw : WFTldrVal v = true)
    (ht : v.truthy = true) : ∃ fs, v = .obj fs := by
  simp only [WFTldrVal, ht, Bool.not_true, Bool.false_or] at hw
  exact isObj_elim hw

theorem pubTypeStr_ok {fs : List (String × JValue)}
    (h2 : optFieldIs (.obj fs) "publicationTypes"
      (fun v => !v.truthy || strListVal v) = true) :
    ∃ s, pubTypeStr (.obj fs) = .ok s := by
  simp only [pubTypeStr, JValue.getD, ok_bind]
  cases htr : ((fs.lookup "publicationTypes").getD (.arr [])).truthy
  · exact ⟨"", by simp [pure_eq_ok]⟩
  · have hv := optFieldIs_getD h2 (d := .arr []) (by rfl)
    have hsl : strListVal ((fs.lookup "publicationTypes").getD (.arr [])) = true := by
      rw [htr] at hv
      simpa using hv
    obtain ⟨xs, hxs, hstrs⟩ := strListVal_elems hsl
    obtain ⟨js, hjs⟩ := joinStrs_ok_of_strs ", " (xs.take 2)
      (fun x hx => hstrs x (List.mem_of_mem_take hx))
    rw [hxs]
    simp only [eq_self_iff_true, if_true, pySliceTo, pyIter, ok_bind, hjs,
      pure_eq_ok]
    exact ⟨_, rfl⟩

theorem lookup_eq_of_truthy {fs : List (String × JValue)} {k : String}
    {d : JValue} (hd : d.truthy = false)
    (h : ((fs.lookup k).getD d).truthy = true) :
    ∃ v, fs.lookup k = some v ∧ (fs.lookup k).getD d = v := by
  rcases hl : fs.lookup k with _ | v
  · rw [hl] at h
    simp only [Option.getD] at h
    simp [h] at hd
  · exact ⟨v, rfl, rfl⟩

theorem searchResultAuthorsBlock_ok {fs : List (String × JValue)}
    (h3 : optFieldIs (.obj fs) "authors" authorsVal = true) :
    ∃ s, searchResultAuthorsBlock (.obj fs) = .ok s := by
  simp only [searchResultAuthorsBlock, JValue.getD, ok_bind]
  by_cases htr : ((fs.lookup "authors").getD .null).truthy = true
  · obtain ⟨au, hlau, hgau⟩ := lookup_eq_of_truthy (d := .null) rfl htr
    have hv : authorsVal au = true := by
      simp only [optFieldIs, JValue.look, hlau] at h3
      simpa using h3
    obtain ⟨as, has, hall⟩ := authorsVal_elems hv
    subst has
    have hgi : JValue.getItem (.obj fs) "authors" = .ok (.arr as) :=
      getItem_of_look (by simp only [JValue.look]; rw [hlau])
    have hmap := mapE_map searchAuthorItem listingAuthorText (as.take 5)
      (fun a ha =>
        searchAuthorItem_eq (WFAuthorEntry_isObj (hall a (List.mem_of_mem_take ha))))
    rw [if_pos htr, hgi]
    simp only [ok_bind, pySliceTo, pyIter, hmap, pyLen, pure_eq_ok]
    exact ⟨_, rfl⟩
  · rw [if_neg htr]
    exact ⟨_, rfl⟩

theorem venueVal_ok (fs : List (String × JValue)) :
    ∃ v, venueVal (.obj fs) = .ok v := ⟨_, rfl⟩

theorem journalNameVal_ok {fs : List (String × JValue)}
    (h4 : optFieldIs (.obj fs) "journal" (fun v => !v.truthy || v.isObj) = true) :
    ∃ v, journalNameVal (.obj fs) = .ok v := by
  simp only [journalNameVal, JValue.getD, ok_bind]
  by_cases htr : ((fs.lookup "journal").getD (.obj [])).truthy = true
  · have hv := optFieldIs_getD h4 (d := .obj []) (by rfl)
    rw [htr] at hv
    have hobj : ((fs.lookup "journal").getD (.obj [])).isObj = true := by
      simpa using hv
    obtain ⟨gs, hgs⟩ := isObj_elim hobj
    rw [if_pos htr, hgs]
    exact ⟨_, rfl⟩
  · rw [if_neg htr]
    exact ⟨_, rfl⟩

theorem pubDateLine_ok (fs : List (String × JValue)) :
    ∃ s, pubDateLine (.obj fs) = .ok s := by
  simp only [pubDateLine, JValue.getD, ok_bind]
  exact ⟨_, rfl⟩

theorem metricsLines_ok {fs : List (String × JValue)}
    (h5 : numLike (JValue.look (.obj fs) "citationCount") = true)
    (h6 : numLike (JValue.look (.obj fs) "influentialCitationCount") = true)
    (h7 : numLike (JValue.look (.obj fs) "referenceCount") = true) :
    ∃ s, metricsLines (.obj fs) = .ok s := by
  obtain ⟨cs, hcs⟩ := formatComma_ok (numLike_getD h5 (d := .num 0) rfl)
  obtain ⟨ics, hics⟩ := formatComma_ok (numLike_getD h6 (d := .num 0) rfl)
  obtain ⟨rs, hrs⟩ := formatComma_ok (numLike_getD h7 (d := .num 0) rfl)
  simp only [metricsLines, JValue.getD, ok_bind, hcs]
  by_cases htr : ((fs.lookup "influentialCitationCount").getD (.num 0)).truthy = true
  · rw [if_pos htr]
    simp only [hics, ok_bind, hrs, pure_eq_ok]
    exact ⟨_, rfl⟩
  · rw [if_neg htr]
    simp only [ok_bind, hrs, pure_eq_ok]
    exact ⟨_, rfl⟩

theorem fieldsLine_ok {fs : List (String × JValue)}
    (h8 : optFieldIs (.obj fs) "fieldsOfStudy"
      (fun v => !v.truthy || strListVal v) = true) :
    ∃ s, fieldsLine (.obj fs) = .ok s := by
  simp only [fieldsLine, JValue.getD, ok_bind]
  by_cases htr : ((fs.lookup "fieldsOfStudy").getD .null).truthy = true
  · obtain ⟨fv, hlf, hgf⟩ := lookup_eq_of_truthy (d := .null) rfl htr
    have hv : (!fv.truthy || strListVal fv) = true := by
      simp only [optFieldIs, JValue.look, hlf] at h8
      simpa using h8
    have htv : fv.truthy = true := by
      rw [hgf] at htr
      exact htr
    have hsl : strListVal fv = true := by
      rw [htv] at hv
      simpa using hv
    obtain ⟨xs, hxs, hstrs⟩ := strListVal_elems hsl
    obtain ⟨js, hjs⟩ := joinStrs_ok_of_strs ", " xs hstrs
    have hg2 : (fs.lookup "fieldsOfStudy").getD (.arr []) = .arr xs := by
      rw [hlf]
      simpa using hxs
    rw [if_pos htr, hg2]
    simp only [pyIter, ok_bind, hjs, pure_eq_ok]
    exact ⟨_, rfl⟩
  · rw [if_neg htr]
    exact ⟨_, rfl⟩

theorem externalIdsBlock_ok {fs : List (String × JValue)}
    (h9 : optFieldIs (.obj fs) "externalIds" JValue.isObj = true) :
    ∃ s, externalIdsBlock (.obj fs) = .ok s := by
  simp only [externalIdsBlock, JValue.getD, ok_bind]
  by_cases htr : ((fs.lookup "externalIds").getD .null).truthy = true
  · obtain ⟨ev, hle, hge⟩ := lookup_eq_of_truthy (d := .null) rfl htr
    have hobj : ev.isObj = true := by
      simp only [optFieldIs, JValue.look, hle] at h9
      simpa using h9
    obtain ⟨es, hes⟩ := isObj_elim hobj
    subst hes
    have hgi : JValue.getItem (.obj fs) "externalIds" = .ok (.obj es) :=
      getItem_of_look (by simp only [JValue.look]; rw [hle])
    rw [if_pos htr, hgi]
    simp only [ok_bind, JValue.getD, pure_eq_ok]
    exact ⟨_, rfl⟩
  · rw [if_neg htr]
    exact ⟨_, rfl⟩

theorem tldrLine_ok {fs : List (String × JValue)}
    (h10 : optFieldIs (.obj fs) "tldr" WFTldrVal = true) :
    ∃ s, tldrLine (.obj fs) = .ok s := by
  simp only [tldrLine, JValue.getD, ok_bind]
  by_cases htr : ((fs.lookup "tldr").getD .null).truthy = true
  · obtain ⟨tv, hlt, hgt⟩ := lookup_eq_of_truthy (d := .null) rfl htr
    have hwt : WFTldrVal tv = true := by
      simp only [optFieldIs, JValue.look, hlt] at h10
      simpa using h10
    have htv : tv.truthy = true := by
      rw [hgt] at htr
      exact htr
    obtain ⟨ts, hts⟩ := WFTldrVal_truthy hwt htv
    subst hts
    have hgi : JValue.getItem (.obj fs) "tldr" = .ok (.obj ts) :=
      getItem_of_look (by simp only [JValue.look]; rw [hlt])
    rw [if_pos htr, hgi]
    simp only [ok_bind, JValue.getD]
    by_cases htx : ((ts.lookup "text").getD .null).truthy = true
    · obtain ⟨xv, hlx, hgx⟩ := lookup_eq_of_truthy (d := .null) rfl htx
      have hgx2 : JValue.getItem (.obj ts) "text" = .ok xv :=
        getItem_of_look (by simp only [JValue.look]; rw [hlx])
      rw [if_pos htx, hgx2]
      exact ⟨_, rfl⟩
    · rw [if_neg htx]
      exact ⟨_, rfl⟩
  · rw [if_neg htr]
    exact ⟨_, rfl⟩

theorem abstractBlock_ok (fs : List (String × JValue)) :
    ∃ s, abstractBlock (.obj fs) = .ok s := by
  simp only [abstractBlock, JValue.getD, ok_bind]
  by_cases htr : ((fs.lookup "abstract").getD .null).truthy = true
  · obtain ⟨av, hla, hga⟩ := lookup_eq_of_truthy (d := .null) rfl htr
    have hgi : JValue.getItem (.obj fs) "abstract" = .ok av :=
      getItem_of_look (by simp only [JValue.look]; rw [hla])
    rw [if_pos htr, hgi]
    exact ⟨_, rfl⟩
  · rw [if_neg htr]
    exact ⟨_, rfl⟩

theorem urlBlock_ok (fs : List (String × JValue)) :
    ∃ s, urlBlock (.obj fs) = .ok s := by
  simp only [urlBlock, JValue.getD, ok_bind]
  by_cases htr : ((fs.lookup "url").getD .null).truthy = true
  · obtain ⟨uv, hlu, hgu⟩ := lookup_eq_of_truthy (d := .null) rfl htr
    have hgi : JValue.getItem (.obj fs) "url" = .ok uv :=
      getItem_of_look (by simp only [JValue.look]; rw [hlu])
    rw [if_pos htr, hgi]
    exact ⟨_, rfl⟩
  · rw [if_neg htr]
    by_cases hpt : ((fs.lookup "paperId").getD .null).truthy = true
    · rw [if_pos hpt]
      exact ⟨_, rfl⟩
    · rw [if_neg hpt]
      exact ⟨_, rfl⟩

theorem WFNestedEntry_authorsArr {gs : List (String × JValue)}
    (h : WFNestedEntry (.obj gs) = true) :
    ∃ as, (gs.lookup "authors").getD (.arr []) = .arr as
      ∧ ∀ a ∈ as, WFAuthorEntry a = true := by
  simp only [WFNestedEntry] at h
  rcases hl : gs.lookup "authors" with _ | v
  · exact ⟨[], rfl, by simp⟩
  · cases v
    case arr as =>
      refine ⟨as, rfl, ?_⟩
      intro a ha
      have h2 : as.all WFAuthorEntry = true := by
        simp only [hl] at h
        simpa using h
      exact List.all_eq_true.mp h2 a ha
    all_goals (simp only [hl] at h; simp at h)

theorem nestedAuthorsStr_ok {gs : List (String × JValue)}
    (h : WFNestedEntry (.obj gs) = true) :
    ∃ s, nestedAuthorsStr (.obj gs) = .ok s := by
  obtain ⟨as, hval, hall⟩ := WFNestedEntry_authorsArr h
  have hmap := mapE_map entryNameItem nameVal as
    (fun a ha => entryNameItem_eq (WFAuthorEntry_isObj (hall a ha)))
  obtain ⟨js, hjs⟩ := joinStrs_ok_of_strs ", " ((as.map nameVal).take 3)
    (fun x hx => nameVals_strs hall x (List.mem_of_mem_take hx))
  simp only [nestedAuthorsStr, JValue.getD, ok_bind, hval, pyIter, hmap, hjs]
  by_cases htr : (JValue.arr as).truthy = true
  · have hlk : gs.lookup "authors" = some (.arr as) := by
      rcases hl : gs.lookup "authors" with _ | v
      · exfalso
        rw [hl] at hval
        simp only [Option.getD] at hval
        injection hval with h2
        rw [← h2] at htr
        simp [JValue.truthy] at htr
      · rw [hl] at hval
        simp only [Option.getD] at hval
        rw [hval]
    have hgi : JValue.getItem (.obj gs) "authors" = .ok (.arr as) :=
      getItem_of_look (by simp only [JValue.look]; rw [hlk])
    rw [if_pos htr, hgi]
    simp only [ok_bind, pyLen, pure_eq_ok]
    exact ⟨_, rfl⟩
  · rw [if_neg htr]
    exact ⟨_, rfl⟩

theorem nestedEntryLine_ok {x : JValue} (h : WFNestedEntry x = true) (i : Nat) :
    ∃ s, nestedEntryLine i x = .ok s := by
  obtain ⟨gs, rfl⟩ := isObj_elim (WFNestedEntry_isObj h)
  obtain ⟨a, ha⟩ := nestedAuthorsStr_ok h
  simp only [nestedEntryLine, JValue.getD, ok_bind, ha, pure_eq_ok]
  exact ⟨_, rfl⟩

theorem citationsBlock_ok {fs : List (String × JValue)}
    (h11 : optFieldIs (.obj fs) "citations" WFEnrichVal = true) :
    ∃ s, citationsBlock (.obj fs) = .ok s := by
  simp only [citationsBlock, JValue.getD, ok_bind]
  by_cases htr : ((fs.lookup "citations").getD .null).truthy = true
  · obtain ⟨cv, hlc, hgc⟩ := lookup_eq_of_truthy (d := .null) rfl htr
    have hw : WFEnrichVal cv = true := by
      simp only [optFieldIs, JValue.look, hlc] at h11
      simpa using h11
    have htv : cv.truthy = true := by
      rw [hgc] at htr
      exact htr
    obtain ⟨xs, hxs, hall⟩ := WFEnrichVal_truthy hw htv
    subst hxs
    have hgi : JValue.getItem (.obj fs) "citations" = .ok (.arr xs) :=
      getItem_of_look (by simp only [JValue.look]; rw [hlc])
    rw [if_pos htr, hgi]
    simp only [ok_bind, pyLen]
    by_cases hn : ((xs.length : Int) > 0)
    · rw [if_pos hn]
      obtain ⟨ls, hls⟩ := mapIdxE_ok_of_all nestedEntryLine (xs.take 3)
        (fun a ha i => nestedEntryLine_ok (hall a (List.mem_of_mem_take ha)) i) 1
      simp only [pySliceTo, pyIter, ok_bind, hls, pure_eq_ok]
      exact ⟨_, rfl⟩
    · rw [if_neg hn]
      exact ⟨_, rfl⟩
  · rw [if_neg htr]
    exact ⟨_, rfl⟩

theorem referencesBlock_ok {fs : List (String × JValue)}
    (h12 : optFieldIs (.obj fs) "references" WFEnrichVal = true) :
    ∃ s, referencesBlock (.obj fs) = .ok s := by
  simp only [referencesBlock, JValue.getD, ok_bind]
  by_cases htr : ((fs.lookup "references").getD .null).truthy = true
  · obtain ⟨cv, hlc, hgc⟩ := lookup_eq_of_truthy (d := .null) rfl htr
    have hw : WFEnrichVal cv = true := by
      simp only [optFieldIs, JValue.look, hlc] at h12
      simpa using h12
    have htv : cv.truthy = true := by
      rw [hgc] at htr
      exact htr
    obtain ⟨xs, hxs, hall⟩ := WFEnrichVal_truthy hw htv
    subst hxs
    have hgi : JValue.getItem (.obj fs) "references" = .ok (.arr xs) :=
      getItem_of_look (by simp only [JValue.look]; rw [hlc])
    rw [if_pos htr, hgi]
    simp only [ok_bind, pyLen]
    by_cases hn : ((xs.length : Int) > 0)
    · rw [if_pos hn]
      obtain ⟨ls, hls⟩ := mapIdxE_ok_of_all nestedEntryLine (xs.take 3)
        (fun a ha i => nestedEntryLine_ok (hall a (List.mem_of_mem_take ha)) i) 1
      simp only [pySliceTo, pyIter, ok_bind, hls, pure_eq_ok]
      exact ⟨_, rfl⟩
    · rw [if_neg hn]
      exact ⟨_, rfl⟩
  · rw [if_neg htr]
    exact ⟨_, rfl⟩

theorem citationFooter_ok {fs : List (String × JValue)}
    (h3 : optFieldIs (.obj fs) "authors" authorsVal = true)
    (h4 : optFieldIs (.obj fs) "journal" (fun v => !v.truthy || v.isObj) = true)
    (h9 : optFieldIs (.obj fs) "externalIds" JValue.isObj = true) :
    ∃ s, citationFooter (.obj fs) = .ok s := by
  have hav : authorsVal ((fs.lookup "authors").getD (.arr [])) = true :=
    optFieldIs_getD h3 (d := .arr []) (by rfl)
  obtain ⟨as, hval, hall⟩ := authorsVal_elems hav
  have hmap := mapE_map entryNameItem nameVal as
    (fun a ha => entryNameItem_eq (WFAuthorEntry_isObj (hall a ha)))
  obtain ⟨js, hjs⟩ := joinStrs_ok_of_strs ", " ((as.map nameVal).take 6)
    (fun x hx => nameVals_strs hall x (List.mem_of_mem_take hx))
  obtain ⟨jn, hjn⟩ := journalNameVal_ok h4
  have hei : JValue.isObj ((fs.lookup "externalIds").getD (.obj [])) = true :=
    optFieldIs_getD h9 (d := .obj []) (by rfl)
  obtain ⟨es, hes⟩ := isObj_elim hei
  simp only [citationFooter, JValue.getD, ok_bind, hval, pyIter, hmap, hjs]
  by_cases htr : (JValue.arr as).truthy = true
  · have hlk : fs.lookup "authors" = some (.arr as) := by
      rcases hl : fs.lookup "authors" with _ | v
      · exfalso
        rw [hl] at hval
        simp only [Option.getD] at hval
        injection hval with h2
        rw [← h2] at htr
        simp [JValue.truthy] at htr
      · rw [hl] at hval
        simp only [Option.getD] at hval
        rw [hval]
    have hgi : JValue.getItem (.obj fs) "authors" = .ok (.arr as) :=
      getItem_of_look (by simp only [JValue.look]; rw [hlk])
    rw [if_pos htr, hgi]
    simp only [ok_bind, pyLen, hjn, venueVal, JValue.getD, hes, pure_eq_ok]
    exact ⟨_, rfl⟩
  · rw [if_neg htr]
    simp only [ok_bind, hjn, venueVal, JValue.getD, hes, pure_eq_ok]
    exact ⟨_, rfl⟩

theorem paperSection_ok {p : JValue} (hw : WFPaper p = true) (idx : Nat) :
    ∃ s, paperSection idx p = .ok s := by
  obtain ⟨h1, h2, h3, h4, h5, h6, h7, h8, h9, h10, h11, h12⟩ := WFPaper_parts hw
  obtain ⟨fs, rfl⟩ := isObj_elim h1
  obtain ⟨s1, e1⟩ := pubTypeStr_ok h2
  obtain ⟨s2, e2⟩ := searchResultAuthorsBlock_ok h3
  obtain ⟨v1, e3⟩ := journalNameVal_ok h4
  obtain ⟨s4, e4⟩ := pubDateLine_ok fs
  obtain ⟨s5, e5⟩ := metricsLines_ok h5 h6 h7
  obtain ⟨s6, e6⟩ := fieldsLine_ok h8
  obtain ⟨s7, e7⟩ := externalIdsBlock_ok h9
  obtain ⟨s8, e8⟩ := tldrLine_ok h10
  obtain ⟨s9, e9⟩ := abstractBlock_ok fs
  obtain ⟨s10, e10⟩ := citationsBlock_ok h11
  obtain ⟨s11, e11⟩ := referencesBlock_ok h12
  obtain ⟨s12, e12⟩ := urlBlock_ok fs
  obtain ⟨s13, e13⟩ := citationFooter_ok h3 h4 h9
  simp only [paperSection, JValue.getD, ok_bind, e1, e2, e3, e4, e5, e6, e7,
    e8, e9, e10, e11, e12, e13, venueVal, pure_eq_ok]
  exact ⟨_, rfl⟩

theorem WFPapersBody_parts {b : JValue} (h : WFPapersBody b = true) :
    b.isObj = true
    ∧ numLike (b.look "total") = true
    ∧ optFieldIs b "data" (falsyOrListOf WFPaper) = true := by
  simp only [WFPapersBody, Bool.and_eq_true] at h
  exact ⟨h.1.1, h.1.2, h.2⟩

theorem renderPapersResult_ok {b : JValue} (hw : WFPapersBody b = true)
    (kw sb : String) : ∃ s, renderPapersResult kw sb b = .ok s := by
  obtain ⟨h1, h2, h3⟩ := WFPapersBody_parts hw
  obtain ⟨fs, rfl⟩ := isObj_elim h1
  simp only [renderPapersResult, JValue.getD, ok_bind]
  by_cases htr : ((fs.lookup "data").getD .null).truthy = true
  · rw [if_neg (by simp [htr])]
    obtain ⟨dv, hld, hgd⟩ := lookup_eq_of_truthy (d := .null) rfl htr
    have hcl : falsyOrListOf WFPaper dv = true := by
      simp only [optFieldIs, JValue.look, hld] at h3
      simpa using h3
    have hdv : dv.truthy = true := by
      rw [hgd] at htr
      exact htr
    obtain ⟨ps, hps, hallps⟩ := falsyOrListOf_truthy hcl hdv
    subst hps
    obtain ⟨ts, hts⟩ := formatComma_ok
      (numLike_getD (by simpa [JValue.look] using h2) (d := .num 0) rfl)
    have hgi : JValue.getItem (.obj fs) "data" = .ok (.arr ps) :=
      getItem_of_look (by simp only [JValue.look]; rw [hld])
    obtain ⟨secs, hsecs⟩ := mapIdxE_ok_of_all paperSection ps
      (fun p hp i => paperSection_ok (hallps p hp) i) 1
    simp only [hts, ok_bind, hgi, pyLen, pyIter, hsecs, pure_eq_ok]
    exact ⟨_, rfl⟩
  · rw [if_pos (by simp [htr])]
    exact ⟨_, rfl⟩

theorem WFPaper_setKeys {fs : List (String × JValue)} {r c t : JValue}
    (hw : WFPaper (.obj fs) = true)
    (hr : WFEnrichVal r = true) (hc : WFEnrichVal c = true)
    (ht : WFTldrVal t = true) :
    WFPaper ((((JValue.obj fs).setKey "references" r).setKey "citations"
      c).setKey "tldr" t) = true := by
  obtain ⟨h1, h2, h3, h4, h5, h6, h7, h8, h9, h10, h11, h12⟩ := WFPaper_parts hw
  have ho1 := isObj_setKey h1 "references" r
  have ho2 := isObj_setKey ho1 "citations" c
  have ho3 := isObj_setKey ho2 "tldr" t
  have hlook : ∀ k, ((((JValue.obj fs).setKey "references" r).setKey
      "citations" c).setKey "tldr" t).look k
      = if k == "tldr" then some t
        else if k == "citations" then some c
        else if k == "references" then some r
        else (JValue.obj fs).look k := by
    intro k
    rw [look_setKey ho2, look_setKey ho1, look_setKey h1]
  simp only [WFPaper, Bool.and_eq_true]
  refine ⟨⟨⟨⟨⟨⟨⟨⟨⟨⟨⟨ho3, ?_⟩, ?_⟩, ?_⟩, ?_⟩, ?_⟩, ?_⟩, ?_⟩, ?_⟩, ?_⟩, ?_⟩, ?_⟩
  · simp only [optFieldIs,
      show ((((JValue.obj fs).setKey "references" r).setKey "citations"
        c).setKey "tldr" t).look "publicationTypes"
        = (JValue.obj fs).look "publicationTypes" from by rw [hlook]; rfl]
    exact h2
  · simp only [optFieldIs,
      show ((((JValue.obj fs).setKey "references" r).setKey "citations"
        c).setKey "tldr" t).look "authors"
        = (JValue.obj fs).look "authors" from by rw [hlook]; rfl]
    exact h3
  · simp only [optFieldIs,
      show ((((JValue.obj fs).setKey "references" r).setKey "citations"
        c).setKey "tldr" t).look "journal"
        = (JValue.obj fs).look "journal" from by rw [hlook]; rfl]
    exact h4
  · rw [show ((((JValue.obj fs).setKey "references" r).setKey "citations"
        c).setKey "tldr" t).look "citationCount"
        = (JValue.obj fs).look "citationCount" from by rw [hlook]; rfl]
    exact h5
  · rw [show ((((JValue.obj fs).setKey "references" r).setKey "citations"
        c).setKey "tldr" t).look "influentialCitationCount"
        = (JValue.obj fs).look "influentialCitationCount" from by
          rw [hlook]; rfl]
    exact h6
  · rw [show ((((JValue.obj fs).setKey "references" r).setKey "citations"
        c).setKey "tldr" t).look "referenceCount"
        = (JValue.obj fs).look "referenceCount" from by rw [hlook]; rfl]
    exact h7
  · simp only [optFieldIs,
      show ((((JValue.obj fs).setKey "references" r).setKey "citations"
        c).setKey "tldr" t).look "fieldsOfStudy"
        = (JValue.obj fs).look "fieldsOfStudy" from by rw [hlook]; rfl]
    exact h8
  · simp only [optFieldIs,
      show ((((JValue.obj fs).setKey "references" r).setKey "citations"
        c).setKey "tldr" t).look "externalIds"
        = (JValue.obj fs).look "externalIds" from by rw [hlook]; rfl]
    exact h9
  · simp only [optFieldIs,
      show ((((JValue.obj fs).setKey "references" r).setKey "citations"
        c).setKey "tldr" t).look "tldr" = some t from by rw [hlook]; rfl]
    exact ht
  · simp only [optFieldIs,
      show ((((JValue.obj fs).setKey "references" r).setKey "citations"
        c).setKey "tldr" t).look "citations" = some c from by rw [hlook]; rfl]
    exact hc
  · simp only [optFieldIs,
      show ((((JValue.obj fs).setKey "references" r).setKey "citations"
        c).setKey "tldr" t).look "references" = some r from by rw [hlook]; rfl]
    exact hr

theorem enrichPaper_ok_preserves
    (detail : String → List (String × String) → HttpOutcome)
    (headers : List (String × String)) {p : JValue}
    (hw : WFPaper p = true)
    (hd : ∀ u h2, DetailAcceptable (detail u h2) = true) :
    ∃ q logs, enrichPaper detail headers p = .ok (q, logs)
      ∧ WFPaper q = true := by
  obtain ⟨fs, rfl⟩ := isObj_elim (WFPaper_parts hw).1
  simp only [enrichPaper, JValue.getD, ok_bind]
  by_cases hpt : ((fs.lookup "paperId").getD .null).truthy = true
  · rw [if_pos hpt]
    cases ho : detail (enrichUrl ((fs.lookup "paperId").getD .null)) headers with
    | reqError m => exact ⟨_, _, rfl, hw⟩
    | otherExn m => exact ⟨_, _, rfl, hw⟩
    | resp st text body =>
      dsimp only
      by_cases hst : (st == 200) = true
      · rw [if_pos hst]
        cases body with
        | error m => exact ⟨_, _, rfl, hw⟩
        | ok det =>
          have hda := hd (enrichUrl ((fs.lookup "paperId").getD .null)) headers
          rw [ho] at hda
          have h200 : st = 200 := by simpa using hst
          subst h200
          cases det with
          | obj ds =>
            simp only [DetailAcceptable] at hda
            obtain ⟨⟨hr, hc⟩, ht⟩ :
                (WFEnrichVal ((ds.lookup "references").getD (.arr [])) = true
                  ∧ WFEnrichVal ((ds.lookup "citations").getD (.arr [])) = true)
                ∧ WFTldrVal ((ds.lookup "tldr").getD (.obj [])) = true := by
              simpa [Bool.and_eq_true] using hda
            simp only [JValue.getD, ok_bind, pure_eq_ok]
            exact ⟨_, _, rfl, WFPaper_setKeys hw hr hc ht⟩
          | null => exact ⟨_, _, rfl, hw⟩
          | bool b => exact ⟨_, _, rfl, hw⟩
          | num n => exact ⟨_, _, rfl, hw⟩
          | str s => exact ⟨_, _, rfl, hw⟩
          | arr xs => exact ⟨_, _, rfl, hw⟩
      · rw [if_neg hst]
        exact ⟨_, _, rfl, hw⟩
  · rw [if_neg hpt]
    exact ⟨_, _, rfl, hw⟩

theorem mapE_enrich_all
    (detail : String → List (String × String) → HttpOutcome)
    (headers : List (String × String)) (ps : List JValue)
    (h : ∀ p ∈ ps, WFPaper p = true)
    (hd : ∀ u h2, DetailAcceptable (detail u h2) = true) :
    ∃ rs, mapE (enrichPaper detail headers) ps = .ok rs
      ∧ ∀ x ∈ rs, WFPaper x.1 = true := by
  induction ps with
  | nil => exact ⟨[], rfl, by simp⟩
  | cons p ps ih =>
    obtain ⟨q, logs, hq, hwq⟩ :=
      enrichPaper_ok_preserves detail headers (h p (by simp)) hd
    obtain ⟨rs, hrs, hws⟩ := ih (fun x hx => h x (by simp [hx]))
    refine ⟨(q, logs) :: rs, ?_, ?_⟩
    · simp [mapE, hq, hrs, ok_bind, pure_eq_ok]
    · intro x hx
      rcases List.mem_cons.mp hx with h1 | h2
      · rw [h1]
        exact hwq
      · exact hws x h2

theorem enrichData_ok_preserves
    (detail : String → List (String × String) → HttpOutcome)
    (headers : List (String × String)) {b : JValue}
    (hw : WFPapersBody b = true)
    (hd : ∀ u h2, DetailAcceptable (detail u h2) = true) :
    ∃ b2 logs, enrichData detail headers b = .ok (b2, logs)
      ∧ WFPapersBody b2 = true := by
  obtain ⟨h1, h2, h3⟩ := WFPapersBody_parts hw
  obtain ⟨fs, rfl⟩ := isObj_elim h1
  simp only [enrichData, JValue.getD, ok_bind]
  by_cases htr : ((fs.lookup "data").getD .null).truthy = true
  · rw [if_pos htr]
    obtain ⟨dv, hld, hgd⟩ := lookup_eq_of_truthy (d := .null) rfl htr
    have hcl : falsyOrListOf WFPaper dv = true := by
      simp only [optFieldIs, JValue.look, hld] at h3
      simpa using h3
    have hdv : dv.truthy = true := by
      rw [hgd] at htr
      exact htr
    obtain ⟨ps, hps, hallps⟩ := falsyOrListOf_truthy hcl hdv
    subst hps
    have hgi : JValue.getItem (.obj fs) "data" = .ok (.arr ps) :=
      getItem_of_look (by simp only [JValue.look]; rw [hld])
    rw [hgi]
    simp only [ok_bind, pyLen]
    by_cases hn : ((ps.length : Int) > 0)
    · rw [if_pos hn]
      obtain ⟨rs, hrs, hws⟩ := mapE_enrich_all detail headers ps hallps hd
      simp only [pyIter, ok_bind, hrs, pure_eq_ok]
      refine ⟨_, _, rfl, ?_⟩
      have hall2 : ((rs.map Prod.fst).all WFPaper) = true :=
        List.all_eq_true.mpr (fun x hx => by
          obtain ⟨pr, hpr, hpx⟩ := List.mem_map.mp hx
          rw [← hpx]
          exact hws pr hpr)
      simp only [WFPapersBody, Bool.and_eq_true]
      refine ⟨⟨isObj_setKey (p := .obj fs) rfl "data" _, ?_⟩, ?_⟩
      · rw [show ((JValue.obj fs).setKey "data"
            (.arr (rs.map Prod.fst))).look "total"
            = (JValue.obj fs).look "total" from by
              rw [look_setKey (p := .obj fs) rfl]; rfl]
        exact h2
      · simp only [optFieldIs,
          show ((JValue.obj fs).setKey "data"
            (.arr (rs.map Prod.fst))).look "data"
            = some (.arr (rs.map Prod.fst)) from by
              rw [look_setKey (p := .obj fs) rfl]; rfl]
        simp [falsyOrListOf, listValAll, hall2]
    · rw [if_neg hn]
      exact ⟨_, _, rfl, hw⟩
  · rw [if_neg htr]
    exact ⟨_, _, rfl, hw⟩

/-- C6 (corrected): during the per-paper enrichment loop, an exception on the
secondary GET is caught and logged and the paper is left unchanged; a non-200
status is skipped silently — unchanged but NOT logged; and in either case the
operation never aborts: with a well-formed primary body and secondary
responses that are failures or carry well-typed enrichment fields, the whole
search still returns a result string covering all papers. -/
theorem c6_enrichment_amended :
    (∀ (detail : String → List (String × String) → HttpOutcome)
        (headers : List (String × String)) (fs : List (String × JValue))
        (pid : JValue) (m : String),
      fs.lookup "paperId" = some pid → pid.truthy = true →
      detail (enrichUrl pid) headers = .reqError m →
      enrichPaper detail headers (.obj fs) = .ok (.obj fs, [enrichWarn pid m]))
    ∧ (∀ (detail : String → List (String × String) → HttpOutcome)
        (headers : List (String × String)) (fs : List (String × JValue))
        (pid : JValue) (m : String),
      fs.lookup "paperId" = some pid → pid.truthy = true →
      detail (enrichUrl pid) headers = .otherExn m →
      enrichPaper detail headers (.obj fs) = .ok (.obj fs, [enrichWarn pid m]))
    ∧ (∀ (detail : String → List (String × String) → HttpOutcome)
        (headers : List (String × String)) (fs : List (String × JValue))
        (pid : JValue) (st : Nat) (text : String) (body : Except String JValue),
      fs.lookup "paperId" = some pid → pid.truthy = true →
      detail (enrichUrl pid) headers = .resp st text body → st ≠ 200 →
      enrichPaper detail headers (.obj fs) = .ok (.obj fs, []))
    ∧ (∀ (jl : String → Except Unit JValue) (apiKey : Option String)
        (kw : String) (lim : Int) (yf yt : Option Int) (sb : String)
        (af : Option String) (st : Nat) (text : String) (body : JValue)
        (detail : String → List (String × String) → HttpOutcome),
      FilterSafe jl af = true → is2xx st = true → WFPapersBody body = true →
      (∀ u h2, DetailAcceptable (detail u h2) = true) →
      isOkE (search_papers_via_semanticscholar jl apiKey kw lim yf yt sb af
        (fun _ _ => .resp st text (.ok body)) detail) = true) := by
  refine ⟨?_, ?_, ?_, ?_⟩
  · intro detail headers fs pid m hl hp ho
    simp only [enrichPaper, JValue.getD, ok_bind, hl, Option.getD]
    rw [if_pos hp, ho]
    rfl
  · intro detail headers fs pid m hl hp ho
    simp only [enrichPaper, JValue.getD, ok_bind, hl, Option.getD]
    rw [if_pos hp, ho]
    rfl
  · intro detail headers fs pid st text body hl hp ho hst
    simp only [enrichPaper, JValue.getD, ok_bind, hl, Option.getD]
    rw [if_pos hp, ho]
    dsimp only
    have hb : (st == 200) = false := by simpa using hst
    rw [if_neg (by simp [hb])]
    rfl
  · intro jl apiKey kw lim yf yt sb af st text body detail hf h2xx hwb hd
    obtain ⟨fw, hfw⟩ := processAdvancedFilters_ok_of_safe jl af hf
    obtain ⟨b2, logs, hen, hwb2⟩ :=
      enrichData_ok_preserves detail (buildHeaders apiKey) hwb hd
    obtain ⟨s, hs⟩ := renderPapersResult_ok hwb2 kw sb
    simp only [search_papers_via_semanticscholar, searchParams, hfw, ok_bind,
      pure_eq_ok]
    simp [h2xx, hen, hs, isOkE]

/-- Witness for the amended C6: a concrete connection failure on the
secondary GET is logged and leaves the paper unchanged, and the whole search
still returns a string. -/
theorem c6_enrichment_amended_witness :
    enrichPaper (fun _ _ => .reqError "boom") []
      (.obj [("paperId", .str "p1"), ("title", .str "T")])
      = .ok (.obj [("paperId", .str "p1"), ("title", .str "T")],
          [enrichWarn (.str "p1") "boom"])
    ∧ isOkE (search_papers_via_semanticscholar (fun _ => .error ()) none
        "quantum" 10 none none "relevance" none
        (fun _ _ => .resp 200 "" (.ok (.obj [("total", .num 1),
          ("data", .arr [.obj [("paperId", .str "p1"),
            ("title", .str "T")]])])))
        (fun _ _ => .reqError "boom")) = true :=
  ⟨c6_enrichment_amended.1 _ _ _ _ _ rfl rfl rfl,
   c6_enrichment_amended.2.2.2 _ none "quantum" 10 none none "relevance" none
     200 "" _ _ rfl rfl rfl (fun _ _ => rfl)⟩

end SemanticScholar
